import Mathlib

/-!
Verification development for the expense correlation and consolidation
pipeline of `src/processamento_dados.py`.

Modelling conventions (shallow embedding):
* A pandas DataFrame is a `DF`: a list of column names plus a list of rows.
  A row is an association list from column names to cell values; rows coming
  from Python dicts have pairwise distinct keys.  A key that is absent from a
  row denotes a NaN cell in that column, mirrored by `Val.na`.
* Python floats are modelled as exact rationals.  `pandas.round` (numpy
  semantics) rounds half to even; it is modelled by `pdRound2` on rationals,
  ignoring binary floating point representation error.
* File input is external: the outcome of the pandas read call is passed to
  `ler_despesas` as a `Leitura` value.  Writing of CSV files is dropped; the
  functions return the data that the source would write.
* Exceptions are modelled with `Except`; a caught-and-logged exception is a
  normal return value of a dedicated result constructor.
* The standard deviation side report of `consolidar_dados_em_csv` involves an
  irrational square root and is not modelled (no claim mentions it); likewise
  the registry inconsistency side report of `juntar_dados_com_operadoras`.
* pandas specifics modelled: `merge` matches NaN keys with NaN keys;
  `groupby` drops rows whose group key is NaN; `sum`/`mean`/`nunique` skip
  NaN values; `drop_duplicates` keeps the first occurrence.  Group iteration
  order (pandas sorts keys) is modelled as first-occurrence order; no claim
  concerns output ordering.  Column name collisions between the two sides of
  a merge (pandas suffixing) are not modelled; the join theorems assume the
  added column names are fresh, which holds for the consolidated table of the
  pipeline.
-/

/-- A cell value: a string, a number (Python float as exact rational), or NaN. -/
inductive Val where
  | str (s : String)
  | num (q : ℚ)
  | na
deriving DecidableEq, Repr

/-- A row: association list from column names to values, keys pairwise distinct. -/
abbrev Row := List (String × Val)

/-- Dictionary lookup; `none` models a missing cell (NaN in that column). -/
def getV : Row → String → Option Val
  | [], _ => none
  | (c2, v) :: resto, c => if c2 == c then some v else getV resto c

/-- Cell value as pandas sees it: a missing association is a NaN cell. -/
def cellVal (r : Row) (c : String) : Val := (getV r c).getD Val.na

/-- Dictionary update: replace the value at the key, or append a new column. -/
def setV : Row → String → Val → Row
  | [], c, v => [(c, v)]
  | (c2, w) :: resto, c, v => if c2 == c then (c, v) :: resto else (c2, w) :: setV resto c v

/-- A DataFrame: column names plus rows. -/
structure DF where
  cols : List String
  rows : List Row
deriving DecidableEq, Repr

/-- `drop_duplicates(subset, keep=first)`: keep the first row of each key. -/
def dedupGo (f : α → β) [DecidableEq β] (vistas : List β) : List α → List α
  | [] => []
  | x :: xs => if f x ∈ vistas then dedupGo f vistas xs else x :: dedupGo f (f x :: vistas) xs

/-- Deduplicate a list by a key function, keeping first occurrences. -/
def dedupByKey (f : α → β) [DecidableEq β] (l : List α) : List α := dedupGo f [] l

/-- Columns of `pd.DataFrame(list_of_dicts)`: union of keys in first-seen order. -/
def unionKeys (dados : List Row) : List String :=
  dedupByKey id (dados.flatMap (fun r => r.map (fun par => par.1)))

/-- Round a rational to the nearest integer, ties to even (numpy convention). -/
def roundHalfEven (q : ℚ) : ℤ :=
  let n := Int.floor q
  let resto := q - n
  if resto < 1/2 then n
  else if 1/2 < resto then n + 1
  else if 2 ∣ n then n else n + 1

/-- `Series.round(2)` on an exact rational. -/
def pdRound2 (q : ℚ) : ℚ := (roundHalfEven (q * 100) : ℚ) / 100

/-- Modelled from the spec: standard round-half-up at 2 decimals, the rounding
mode the specification prescribes for monetary values. -/
def roundHalfUp2 (q : ℚ) : ℚ := (Int.floor (q * 100 + 1/2) : ℚ) / 100

/-- Whitespace accepted around a Python float literal. -/
def espacoBranco (c : Char) : Bool := c == ' ' || c == '\t' || c == '\n' || c == '\r'

/-- Strip whitespace from both ends of a character list. -/
def aparaEspacos (cs : List Char) : List Char :=
  ((cs.dropWhile espacoBranco).reverse.dropWhile espacoBranco).reverse

/-- Numeric value of a digit string. -/
def digitosQ (cs : List Char) : ℚ := cs.foldl (fun a c => a * 10 + ((c.toNat - 48 : ℕ) : ℚ)) 0

/-- Unsigned decimal literal: digits, optionally a single dot and digits.
Exponents, infinities and digit group separators are outside the scope of the
data handled here. -/
def parseDecimalSemSinal (cs : List Char) : Option ℚ :=
  let ip := cs.takeWhile Char.isDigit
  let resto := cs.dropWhile Char.isDigit
  match resto with
  | [] => if ip.isEmpty then none else some (digitosQ ip)
  | c :: fp =>
    if c == '.' && fp.all Char.isDigit && !(ip.isEmpty && fp.isEmpty) then
      some (digitosQ ip + digitosQ fp / (10 : ℚ) ^ fp.length)
    else none

/-- `float(s)` / `pd.to_numeric` on a decimal string: optional sign around an
unsigned decimal literal, whitespace stripped. -/
def parsePyFloat (s : String) : Option ℚ :=
  match aparaEspacos s.data with
  | '+' :: resto => parseDecimalSemSinal resto
  | '-' :: resto => (parseDecimalSemSinal resto).map (fun q => -q)
  | resto => parseDecimalSemSinal resto

/-- `str.replace(',', '.')` with single character arguments. -/
def substVirgula (s : String) : String :=
  String.mk (s.data.map (fun c => if c == ',' then '.' else c))

/-- One cell of `pd.to_numeric(col.astype(str).str.replace(',', '.'),
errors='coerce').round(2)`: unparseable cells coerce to NaN. -/
def toNumericCell (v : Val) : Val :=
  match v with
  | Val.str s =>
    match parsePyFloat (substVirgula s) with
    | some q => Val.num (pdRound2 q)
    | none => Val.na
  | Val.num q => Val.num (pdRound2 q)
  | Val.na => Val.na

/-- `(VL_SALDO_FINAL - VL_SALDO_INICIAL).round(2)` on one row; NaN propagates. -/
def subtrairVal : Val → Val → Val
  | Val.num f, Val.num i => Val.num (pdRound2 (f - i))
  | _, _ => Val.na

/-- `re.sub(r'\D', '', cnpj)` then digit values.  Digits are modelled as the
ASCII digits 0-9. -/
def cnpjDigitos (s : String) : List ℕ := (s.data.filter Char.isDigit).map (fun c => c.toNat - 48)

/-- Official CNPJ weights for the first check digit. -/
def pesosPrimeiro : List ℕ := [5, 4, 3, 2, 9, 8, 7, 6, 5, 4, 3, 2]

/-- Official CNPJ weights for the second check digit. -/
def pesosSegundo : List ℕ := [6, 5, 4, 3, 2, 9, 8, 7, 6, 5, 4, 3, 2]

/-- The weighted sum loop `soma += int(cnpj[i]) * peso[i]`. -/
def somaPonderada (ds ps : List ℕ) : ℕ := (List.zipWith (fun d p => d * p) ds ps).sum

/-- Check digit from a weighted sum: 0 when `soma % 11 < 2`, else `11 - soma % 11`. -/
def digitoVerificador (ds ps : List ℕ) : ℕ :=
  let resto := somaPonderada ds ps % 11
  if resto < 2 then 0 else 11 - resto

/-- `validar_cnpj`: modulus 11 validation of a CNPJ string. -/
def validar_cnpj (cnpj : String) : Bool :=
  let ds := cnpjDigitos cnpj
  if ds.length != 14 then false
  else if ds.all (fun d => d == ds.headD 0) then false
  else if ds.getD 12 0 != digitoVerificador (ds.take 12) pesosPrimeiro then false
  else if ds.getD 13 0 != digitoVerificador (ds.take 13) pesosSegundo then false
  else true

/-- Modelled from the spec: the weighted sum written as an indexed sum, used to
state the validator characterisation independently of the loop. -/
def somaEspec (ds ps : List ℕ) : ℕ :=
  (Finset.range ds.length).sum (fun i => ds.getD i 0 * ps.getD i 0)

/-- Modelled from the spec: check digit from the indexed weighted sum. -/
def digitoEspec (ds ps : List ℕ) : ℕ :=
  if somaEspec ds ps % 11 < 2 then 0 else 11 - somaEspec ds ps % 11

/-- Candidate names for the registry id column of the expense table. -/
def possiveis_nomes_despesas : List String :=
  ["REGISTRO_OPERADORA", "REG_ANS", "CD_REGISTRO_ANS", "REGISTRO_ANS", "CD_REG_ANS"]

/-- Candidate names for the registry id column of the registry table. -/
def possiveis_nomes_operadoras : List String :=
  ["REG_ANS", "REGISTRO_ANS", "CD_REGISTRO_ANS", "REGISTRO_OPERADORA"]

/-- First candidate name present among the columns of a table. -/
def resolveColumn (cols : List String) (cands : List String) : Option String :=
  cands.find? (fun nome => decide (nome ∈ cols))

/-- The CNPJ column of the registry table: `CNPJ`, else `CD_CNPJ`, else none. -/
def colunaCnpjDe (dfOperadoras : DF) : Option String :=
  if "CNPJ" ∈ dfOperadoras.cols then some "CNPJ"
  else if "CD_CNPJ" ∈ dfOperadoras.cols then some "CD_CNPJ" else none

/-- The legal name column: `Razao_Social`, else `NM_RAZAO_SOCIAL`, else none. -/
def colunaRazaoDe (dfOperadoras : DF) : Option String :=
  if "Razao_Social" ∈ dfOperadoras.cols then some "Razao_Social"
  else if "NM_RAZAO_SOCIAL" ∈ dfOperadoras.cols then some "NM_RAZAO_SOCIAL" else none

/-- Exceptions that the modelled functions can raise. -/
inductive Excecao where
  | formatoNaoSuportado
  | falhaLeitura
  | colunaNaoEncontrada (nome : String)
deriving DecidableEq, Repr

/-- The record emitted for one joined pair of the inner merge of
`correlacionar_dados`. -/
def registroCorrelacionado (colRegOp colCnpj colRazao : String) (r o : Row) : Row :=
  [("reg_ans", cellVal o colRegOp), ("CNPJ", cellVal o colCnpj),
   ("RazaoSocial", cellVal o colRazao), ("ValorDespesas", cellVal r "DESPESA")]

/-- `correlacionar_dados`: resolve the four logical columns, inner-merge the
expense rows with the registry rows on the registry id, and emit one record per
joined pair.  A failed column resolution prints a warning and returns the empty
list.  Selecting the `DESPESA` column of the merge result raises `KeyError`
when the expense table has no such column. -/
def correlacionar_dados (dfDespesas dfOperadoras : DF) : Except Excecao (List Row) :=
  match resolveColumn dfDespesas.cols possiveis_nomes_despesas with
  | none => Except.ok []
  | some colRegDesp =>
    match resolveColumn dfOperadoras.cols possiveis_nomes_operadoras with
    | none => Except.ok []
    | some colRegOp =>
      match colunaCnpjDe dfOperadoras, colunaRazaoDe dfOperadoras with
      | some colCnpj, some colRazao =>
        if "DESPESA" ∈ dfDespesas.cols then
          Except.ok (dfDespesas.rows.flatMap (fun r =>
            ((dfOperadoras.rows.filter
                (fun o => cellVal o colRegOp == cellVal r colRegDesp)).map
              (registroCorrelacionado colRegOp colCnpj colRazao r))))
        else Except.error (Excecao.colunaNaoEncontrada "DESPESA")
      | _, _ => Except.ok []

/-- Outcome of the pandas read call inside `ler_despesas`; the file system is
external to the model, so the parsed content (or the read failure) is an input. -/
inductive Leitura where
  | tabela (df : DF)
  | falha
deriving DecidableEq, Repr

/-- Extension dispatch of `ler_despesas`: `.csv`, `.txt` or `.xlsx`. -/
def terminaCom (s sufixo : String) : Bool :=
  s.data.reverse.take sufixo.data.length == sufixo.data.reverse

/-- Monetary conversion and derived expense for one filtered row. -/
def linhaComDespesa (r : Row) : Row :=
  let f := toNumericCell (cellVal r "VL_SALDO_FINAL")
  let i := toNumericCell (cellVal r "VL_SALDO_INICIAL")
  setV (setV (setV r "VL_SALDO_FINAL" f) "VL_SALDO_INICIAL" i) "DESPESA" (subtrairVal f i)

/-- `ler_despesas`: dispatch on the extension, read, filter rows whose
`DESCRICAO` equals the target category, convert the two monetary columns and
derive `DESPESA`.  Missing required columns raise `KeyError`; unsupported
extensions raise `ValueError`; read failures propagate. -/
def ler_despesas (caminho : String) (leitura : Leitura) : Except Excecao DF :=
  if !(terminaCom caminho ".csv" || terminaCom caminho ".txt" || terminaCom caminho ".xlsx") then
    Except.error Excecao.formatoNaoSuportado
  else
    match leitura with
    | Leitura.falha => Except.error Excecao.falhaLeitura
    | Leitura.tabela df =>
      if "DESCRICAO" ∉ df.cols then Except.error (Excecao.colunaNaoEncontrada "DESCRICAO")
      else
        let filtradas := df.rows.filter
          (fun r => getV r "DESCRICAO" == some (Val.str "Despesas com Eventos / Sinistros"))
        if "VL_SALDO_FINAL" ∉ df.cols then
          Except.error (Excecao.colunaNaoEncontrada "VL_SALDO_FINAL")
        else if "VL_SALDO_INICIAL" ∉ df.cols then
          Except.error (Excecao.colunaNaoEncontrada "VL_SALDO_INICIAL")
        else
          Except.ok ⟨(if "DESPESA" ∈ df.cols then df.cols else df.cols ++ ["DESPESA"]),
            filtradas.map linhaComDespesa⟩

/-- Quarter and year annotation of the wrapper: `if trimestre is not None or
ano is not None`, stamp each record. -/
def adicionarTrimestreAno (rs : List Row) (trimestre ano : Option ℕ) : List Row :=
  if trimestre.isSome || ano.isSome then
    rs.map (fun r =>
      let r1 := match trimestre with
        | some t => setV r "Trimestre" (Val.num t)
        | none => r
      match ano with
      | some a => setV r1 "Ano" (Val.num a)
      | none => r1)
  else rs

/-- The try-block of `correlacionar_despesas_com_operadoras`:
read the expense file, then correlate. -/
def pipelineDespesas (caminho : String) (leitura : Leitura) (dfOperadoras : DF) :
    Except Excecao (List Row) :=
  match ler_despesas caminho leitura with
  | Except.error e => Except.error e
  | Except.ok dfDespesas => correlacionar_dados dfDespesas dfOperadoras

/-- `correlacionar_despesas_com_operadoras`: the per file pipeline entry point.
Any exception from reading or correlating is caught, logged and turned into an
empty list; on success the records are stamped with quarter and year. -/
def correlacionar_despesas_com_operadoras (caminho : String) (leitura : Leitura)
    (dfOperadoras : DF) (trimestre ano : Option ℕ) : List Row :=
  match pipelineDespesas caminho leitura dfOperadoras with
  | Except.error _ => []
  | Except.ok resultados => adicionarTrimestreAno resultados trimestre ano

/-- `str(registro.get('CNPJ', ''))`: Python string form of a cell.  Numeric
cells of integral value print as integers; the fractional branch is schematic
(no claim exercises it). -/
def valStr : Option Val → String
  | some (Val.str s) => s
  | some (Val.num q) =>
    if q.den == 1 then toString q.num else toString q.num ++ "/" ++ toString q.den
  | some Val.na => "nan"
  | none => ""

/-- `filtrar_cnpjs_invalidos`: partition records by CNPJ validity; the invalid
side is projected to (CNPJ, REG_ANS, RazaoSocial) and deduplicated.  The CSV
write is dropped; both lists are returned. -/
def filtrar_cnpjs_invalidos (dados : List Row) : List Row × List Row :=
  let validos := dados.filter (fun r => validar_cnpj (valStr (getV r "CNPJ")))
  let invalidos := (dados.filter (fun r => !(validar_cnpj (valStr (getV r "CNPJ"))))).map
    (fun r => [("CNPJ", Val.str (valStr (getV r "CNPJ"))),
               ("REG_ANS", (getV r "reg_ans").getD (Val.str "")),
               ("RazaoSocial", (getV r "RazaoSocial").getD (Val.str ""))])
  (validos, dedupByKey id invalidos)

/-- The valid-CNPJ subset used by the consolidation. -/
def validosDe (dados : List Row) : List Row := (filtrar_cnpjs_invalidos dados).1

/-- The columns the consolidated output keeps. -/
def colunasDesejadas : List String := ["CNPJ", "RazaoSocial", "Trimestre", "Ano", "ValorDespesas"]

/-- `colunas_existentes`: the desired columns actually present. -/
def colunasExistentesDe (dados : List Row) : List String :=
  colunasDesejadas.filter (fun c => decide (c ∈ unionKeys (validosDe dados)))

/-- One cell of `df['ValorDespesas'].astype(float).round(2)`: a non numeric
string raises `ValueError` (caught by the generic handler of the caller). -/
def arredondarValor (r : Row) : Except Unit Row :=
  match getV r "ValorDespesas" with
  | some (Val.num q) => Except.ok (setV r "ValorDespesas" (Val.num (pdRound2 q)))
  | some (Val.str s) =>
    match parsePyFloat s with
    | some q => Except.ok (setV r "ValorDespesas" (Val.num (pdRound2 q)))
    | none => Except.error ()
  | _ => Except.ok r

/-- Sequence `Except` over a list, stopping at the first error. -/
def mapExcept (f : α → Except ε β) : List α → Except ε (List β)
  | [] => Except.ok []
  | x :: xs =>
    match f x with
    | Except.error e => Except.error e
    | Except.ok y =>
      match mapExcept f xs with
      | Except.error e => Except.error e
      | Except.ok ys => Except.ok (y :: ys)

/-- The rounding pass over `ValorDespesas`, applied only when the column exists. -/
def etapaArredondar (dados : List Row) : Except Unit (List Row) :=
  if "ValorDespesas" ∈ colunasExistentesDe dados then
    mapExcept arredondarValor (validosDe dados)
  else Except.ok (validosDe dados)

/-- The aggregation group key of the consolidation. -/
structure Chave where
  cnpj : Option Val
  razaoSocial : Option Val
  trimestre : Option Val
  ano : Option Val
deriving DecidableEq, Repr

/-- A cell usable as a pandas group key: present and not NaN. -/
def okCelula : Option Val → Bool
  | some (Val.str _) => true
  | some (Val.num _) => true
  | some Val.na => false
  | none => false

/-- Group key of a record. -/
def chave (r : Row) : Chave :=
  ⟨getV r "CNPJ", getV r "RazaoSocial", getV r "Trimestre", getV r "Ano"⟩

/-- Rows kept by `groupby` (pandas drops rows with a NaN group key). -/
def chaveValida (r : Row) : Bool :=
  okCelula (getV r "CNPJ") && okCelula (getV r "RazaoSocial") &&
  okCelula (getV r "Trimestre") && okCelula (getV r "Ano")

/-- The expense values of a group, NaN cells skipped (pandas `sum`/`mean`). -/
def valoresGrupo (g : List Row) : List ℚ :=
  g.filterMap (fun r =>
    match getV r "ValorDespesas" with
    | some (Val.num q) => some q
    | _ => none)

/-- The aggregated output row of one group: sum and mean of the expense,
rounded to 2 decimals. -/
def linhaAgregada (g : List Row) (k : Chave) : Row :=
  let vs := valoresGrupo g
  [("CNPJ", k.cnpj.getD Val.na), ("RazaoSocial", k.razaoSocial.getD Val.na),
   ("Trimestre", k.trimestre.getD Val.na), ("Ano", k.ano.getD Val.na),
   ("ValorDespesas", Val.num (pdRound2 vs.sum)),
   ("MediaTrimestral",
    if vs.length == 0 then Val.na else Val.num (pdRound2 (vs.sum / (vs.length : ℚ))))]

/-- Rows with usable group keys. -/
def linhasComChave (rows : List Row) : List Row := rows.filter chaveValida

/-- The distinct group keys, first occurrence order. -/
def chavesDe (rows : List Row) : List Chave := dedupByKey id (rows.map chave)

/-- `groupby([...]).agg({'ValorDespesas': ['sum', 'mean']})` with flattened
column names: one aggregated row per occurring group key. -/
def agregados (rows : List Row) : List Row :=
  (chavesDe (linhasComChave rows)).map
    (fun k => linhaAgregada ((linhasComChave rows).filter (fun r => chave r == k)) k)

/-- One row of the duplicate-name conflict report. -/
structure LinhaConflito where
  cnpj : Val
  razaoSocial1 : Val
  razaoSocial2 : Val
  trimestre : Val
  ano : Val
  valorDespesas1 : Val
  valorDespesas2 : Val
deriving DecidableEq, Repr

/-- Rows whose CNPJ group key is usable (pandas `groupby` drops NaN keys). -/
def comChaveCnpj (dados : List Row) : List Row :=
  dados.filter (fun r => cellVal r "CNPJ" != Val.na)

/-- The distinct CNPJ group keys. -/
def chavesCnpj (dados : List Row) : List Val :=
  dedupByKey id ((comChaveCnpj dados).map (fun r => cellVal r "CNPJ"))

/-- The group of one CNPJ. -/
def grupoCnpj (dados : List Row) (k : Val) : List Row :=
  (comChaveCnpj dados).filter (fun r => cellVal r "CNPJ" == k)

/-- `grupo['RazaoSocial'].unique()`: distinct names in first occurrence order. -/
def razoesDe (dados : List Row) (k : Val) : List Val :=
  dedupByKey id ((grupoCnpj dados k).map (fun r => cellVal r "RazaoSocial"))

/-- `grupo['Trimestre'].values`. -/
def trimestresDe (dados : List Row) (k : Val) : List Val :=
  (grupoCnpj dados k).map (fun r => cellVal r "Trimestre")

/-- `grupo['Ano'].values`. -/
def anosDe (dados : List Row) (k : Val) : List Val :=
  (grupoCnpj dados k).map (fun r => cellVal r "Ano")

/-- `grupo['ValorDespesas'].values`. -/
def valoresDe (dados : List Row) (k : Val) : List Val :=
  (grupoCnpj dados k).map (fun r => cellVal r "ValorDespesas")

/-- `Series.nunique()`: distinct values, NaN excluded. -/
def nunique (vs : List Val) : ℕ := ((dedupByKey id vs).filter (fun v => v != Val.na)).length

/-- The index pairs `(i, j)` of the double loop `for i in range(n): for j in
range(i + 1, n)`, in loop order. -/
def paresIndices (n : ℕ) : List (ℕ × ℕ) :=
  (List.range n).flatMap (fun i => (List.range (n - (i + 1))).map (fun d => (i, i + 1 + d)))

/-- The conflict row the source builds for the index pair `par = (i, j)`:
the names are the i-th and j-th distinct names, but quarter, year and both
expense values are read from the i-th and j-th rows of the group. -/
def montarConflito (dados : List Row) (k : Val) (par : ℕ × ℕ) : LinhaConflito :=
  ⟨k, (razoesDe dados k).getD par.1 Val.na, (razoesDe dados k).getD par.2 Val.na,
   (trimestresDe dados k).getD par.1 Val.na, (anosDe dados k).getD par.1 Val.na,
   (valoresDe dados k).getD par.1 Val.na, (valoresDe dados k).getD par.2 Val.na⟩

/-- `salvar_cnpjs_duplicados`: for each CNPJ whose group has more than one
distinct legal name, emit one row per index pair of distinct names.  The CSV
write is dropped; the emitted rows are returned. -/
def salvar_cnpjs_duplicados (dados : List Row) : List LinhaConflito :=
  (chavesCnpj dados).flatMap (fun k =>
    if 1 < nunique ((grupoCnpj dados k).map (fun r => cellVal r "RazaoSocial")) then
      (paresIndices (razoesDe dados k).length).map (montarConflito dados k)
    else [])

/-- Modelled from the spec: the first expense value encountered for a given
legal name of a CNPJ group, which the specification says each conflict row
carries for each name of the pair. -/
def primeiraDespesaDoNome (dados : List Row) (k nome : Val) : Option Val :=
  ((grupoCnpj dados k).filter (fun r => cellVal r "RazaoSocial" == nome)).head?.map
    (fun r => cellVal r "ValorDespesas")

/-- Result of `consolidar_dados_em_csv`.  The source function returns `None`
in every branch: the `lancada` constructor (an exception escaping to the
caller) is produced by no branch, mirroring that its handlers never re-raise. -/
inductive ResultadoConsolidacao where
  | ok (consolidado : List Row) (duplicados : List LinhaConflito)
  | semDados
  | colunaNaoEncontrada (disponiveis : List String)
  | outroErro
  | lancada (mensagem : String)
deriving DecidableEq, Repr

/-- Whether a consolidation outcome is an exception escaping to the caller. -/
def eLancada : ResultadoConsolidacao → Bool
  | ResultadoConsolidacao.lancada _ => true
  | _ => false

/-- `consolidar_dados_em_csv`: filter invalid CNPJs, keep the desired columns,
round the expense, aggregate by (CNPJ, RazaoSocial, Trimestre, Ano), and build
the duplicate-name report from the full pre-validation record set.  A missing
desired column makes the later `groupby`/`agg` raise `KeyError`, which the
handler catches and logs together with the available columns of the input;
the generic handler turns any other exception into a logged no-op. -/
def consolidar_dados_em_csv (dados : List Row) : ResultadoConsolidacao :=
  if (validosDe dados).isEmpty then ResultadoConsolidacao.semDados
  else
    match etapaArredondar dados with
    | Except.error _ => ResultadoConsolidacao.outroErro
    | Except.ok arredondados =>
      if colunasExistentesDe dados ≠ colunasDesejadas then
        ResultadoConsolidacao.colunaNaoEncontrada (unionKeys dados)
      else
        ResultadoConsolidacao.ok (agregados arredondados) (salvar_cnpjs_duplicados dados)

/-- Helper for stating the aggregation: the raw expense of a record. -/
def despesaQ (r : Row) : ℚ :=
  match getV r "ValorDespesas" with
  | some (Val.num q) => q
  | _ => 0

/-- Helper for stating the aggregation: sum of the rounded expense values of
one group of the input. -/
def somaGrupo (dados : List Row) (k : Chave) : ℚ :=
  ((dados.filter (fun r => chave r == k)).map (fun r => pdRound2 (despesaQ r))).sum

/-- Helper for stating the aggregation: size of one group of the input. -/
def contagemGrupo (dados : List Row) (k : Chave) : ℕ :=
  (dados.filter (fun r => chave r == k)).length

/-- Errors of `juntar_dados_com_operadoras` (all propagated: its handlers
re-raise). -/
inductive ErroJuntar where
  | colunaAusente (nome : String)
  | cardinalidade (esperado obtido : ℕ)
deriving DecidableEq, Repr

/-- Candidate names for the registry number column of the enrichment join. -/
def possiveis_nomes_registro : List String :=
  ["REGISTRO_OPERADORA", "RegistroANS", "REG_ANS", "REGISTRO_ANS", "CD_REGISTRO_ANS"]

/-- The sentinel written where the registry has no match. -/
def semMatch : Val := Val.str "Registro sem match no cadastro"

/-- `fillna` on one enrichment cell. -/
def preencher (v : Val) : Val := if v == Val.na then semMatch else v

/-- `drop_duplicates(subset=['CNPJ'], keep='first')` on the registry rows. -/
def operadorasUnicas (dfOperadoras : DF) : List Row :=
  dedupByKey (fun o => cellVal o "CNPJ") dfOperadoras.rows

/-- The deduplicated registry restricted to the four join columns, the registry
number column renamed to `RegistroANS`. -/
def operadorasFiltradas (dfOperadoras : DF) (colunaRegistro : String) : List Row :=
  (operadorasUnicas dfOperadoras).map (fun o =>
    [("CNPJ", cellVal o "CNPJ"), ("RegistroANS", cellVal o colunaRegistro),
     ("Modalidade", cellVal o "Modalidade"), ("UF", cellVal o "UF")])

/-- The registry rows matching one consolidated row (pandas merge matches NaN
keys with NaN keys). -/
def correspondencias (dfOperadoras : DF) (colunaRegistro : String) (linha : Row) : List Row :=
  (operadorasFiltradas dfOperadoras colunaRegistro).filter
    (fun o => cellVal o "CNPJ" == cellVal linha "CNPJ")

/-- The left merge on CNPJ followed by `fillna` with the sentinel. -/
def linhasJuntadas (dfDados dfOperadoras : DF) (colunaRegistro : String) : List Row :=
  dfDados.rows.flatMap (fun linha =>
    match correspondencias dfOperadoras colunaRegistro linha with
    | [] => [linha ++ [("RegistroANS", semMatch), ("Modalidade", semMatch), ("UF", semMatch)]]
    | encontrados => encontrados.map (fun o =>
        linha ++ [("RegistroANS", preencher (cellVal o "RegistroANS")),
                  ("Modalidade", preencher (cellVal o "Modalidade")),
                  ("UF", preencher (cellVal o "UF"))]))

/-- `juntar_dados_com_operadoras`: check the required columns, deduplicate the
registry by CNPJ keeping the first occurrence, left join on CNPJ adding
`RegistroANS`, `Modalidade`, `UF` (sentinel for unmatched rows), and raise on
any row count change.  The consolidated table is passed directly (the CSV read
is external); the registry inconsistency side report is not modelled. -/
def juntar_dados_com_operadoras (dfDados dfOperadoras : DF) : Except ErroJuntar DF :=
  if "CNPJ" ∉ dfDados.cols then Except.error (ErroJuntar.colunaAusente "CNPJ")
  else if "CNPJ" ∉ dfOperadoras.cols then Except.error (ErroJuntar.colunaAusente "CNPJ")
  else
    match resolveColumn dfOperadoras.cols possiveis_nomes_registro with
    | none => Except.error (ErroJuntar.colunaAusente "RegistroANS")
    | some colunaRegistro =>
      if "Modalidade" ∉ dfOperadoras.cols then
        Except.error (ErroJuntar.colunaAusente "Modalidade")
      else if "UF" ∉ dfOperadoras.cols then Except.error (ErroJuntar.colunaAusente "UF")
      else
        let resultado := linhasJuntadas dfDados dfOperadoras colunaRegistro
        if resultado.length ≠ dfDados.rows.length then
          Except.error (ErroJuntar.cardinalidade dfDados.rows.length resultado.length)
        else Except.ok ⟨dfDados.cols ++ ["RegistroANS", "Modalidade", "UF"], resultado⟩

/-- A CNPJ accepted by the validator (both check digits correct). -/
def cnpjValido : String := "11222333000181"

/-- A record of the consolidation example. -/
def linhaConsolidacao (razao : String) (t a : ℕ) (v : ℚ) : Row :=
  [("reg_ans", Val.str "123"), ("CNPJ", Val.str cnpjValido), ("RazaoSocial", Val.str razao),
   ("ValorDespesas", Val.num v), ("Trimestre", Val.num t), ("Ano", Val.num a)]

/-- Two records with the same group key and expenses 100 and 50. -/
def exemploConsolidacao : List Row :=
  [linhaConsolidacao "Alpha" 1 2023 100, linhaConsolidacao "Alpha" 1 2023 50]

/-- A record set with a valid CNPJ but no Trimestre and Ano columns. -/
def exemploColunaFaltante : List Row :=
  [[("CNPJ", Val.str cnpjValido), ("RazaoSocial", Val.str "Alpha"), ("ValorDespesas", Val.num 10)]]

/-- A record of the duplicate-name examples. -/
def linhaDuplicada (razao : String) (t : ℕ) (v : ℚ) : Row :=
  [("CNPJ", Val.str "X"), ("RazaoSocial", Val.str razao), ("ValorDespesas", Val.num v),
   ("Trimestre", Val.num t), ("Ano", Val.num 2023)]

/-- One CNPJ, names Alpha, Alpha, Beta: the name Beta first occurs on the third
row, but the conflict row for the pair (Alpha, Beta) reads its second expense
from the second row of the group. -/
def exemploConflito : List Row :=
  [linhaDuplicada "Alpha" 1 100, linhaDuplicada "Alpha" 2 110, linhaDuplicada "Beta" 3 200]

/-- One CNPJ with three distinct names. -/
def exemploTresNomes : List Row :=
  [linhaDuplicada "Alpha" 1 100, linhaDuplicada "Beta" 2 110, linhaDuplicada "Gama" 3 200]

/-- A consolidated table for the join example: one matched and one unmatched row. -/
def dfConsolidadoEx : DF := ⟨["CNPJ", "RazaoSocial"],
  [[("CNPJ", Val.str cnpjValido), ("RazaoSocial", Val.str "Alpha")],
   [("CNPJ", Val.str "99999999999999"), ("RazaoSocial", Val.str "Orfa")]]⟩

/-- A registry table with a duplicated CNPJ (exercises the deduplication). -/
def dfOperadorasEx : DF := ⟨["CNPJ", "REG_ANS", "Modalidade", "UF"],
  [[("CNPJ", Val.str cnpjValido), ("REG_ANS", Val.str "123"),
    ("Modalidade", Val.str "Medicina"), ("UF", Val.str "SP")],
   [("CNPJ", Val.str cnpjValido), ("REG_ANS", Val.str "456"),
    ("Modalidade", Val.str "Odonto"), ("UF", Val.str "RJ")]]⟩

/-- An expense table with one row keyed 111 (fan-out example). -/
def dfDespesasEx : DF := ⟨["REG_ANS", "DESPESA"],
  [[("REG_ANS", Val.str "111"), ("DESPESA", Val.num 40)]]⟩

/-- A registry table with two rows keyed 111. -/
def dfRegistroEx : DF := ⟨["REG_ANS", "CNPJ", "Razao_Social"],
  [[("REG_ANS", Val.str "111"), ("CNPJ", Val.str "1"), ("Razao_Social", Val.str "A")],
   [("REG_ANS", Val.str "111"), ("CNPJ", Val.str "2"), ("Razao_Social", Val.str "B")]]⟩

/-! ## Helper lemmas -/

theorem mem_of_mem_dedupGo (f : α → β) [DecidableEq β] (vistas : List β) (l : List α)
    (x : α) (hx : x ∈ dedupGo f vistas l) : x ∈ l := by
  induction l generalizing vistas with
  | nil => simp [dedupGo] at hx
  | cons y ys ih =>
    by_cases hy : f y ∈ vistas
    · simp only [dedupGo, if_pos hy] at hx
      exact List.mem_cons_of_mem y (ih vistas hx)
    · simp only [dedupGo, if_neg hy, List.mem_cons] at hx
      rcases hx with h | h
      · exact h ▸ List.mem_cons_self y ys
      · exact List.mem_cons_of_mem y (ih (f y :: vistas) h)

theorem mem_map_dedupGo (f : α → β) [DecidableEq β] (vistas : List β) (l : List α) (k : β) :
    k ∈ (dedupGo f vistas l).map f ↔ (k ∈ l.map f ∧ k ∉ vistas) := by
  induction l generalizing vistas with
  | nil => simp [dedupGo]
  | cons y ys ih =>
    by_cases hy : f y ∈ vistas
    · simp only [dedupGo, if_pos hy, List.map_cons, List.mem_cons, ih]
      constructor
      · rintro ⟨h1, h2⟩; exact ⟨Or.inr h1, h2⟩
      · rintro ⟨h1 | h1, h2⟩
        · exact absurd (h1 ▸ hy) h2
        · exact ⟨h1, h2⟩
    · simp only [dedupGo, if_neg hy, List.map_cons, List.mem_cons, ih, List.mem_cons]
      constructor
      · rintro (rfl | ⟨h1, h2⟩)
        · exact ⟨Or.inl rfl, hy⟩
        · exact ⟨Or.inr h1, fun hk => h2 (Or.inr hk)⟩
      · rintro ⟨rfl | h1, h2⟩
        · exact Or.inl rfl
        · by_cases hk : k = f y
          · exact Or.inl hk
          · refine Or.inr ⟨h1, fun hmem => ?_⟩
            rcases hmem with h | h
            · exact hk h
            · exact h2 h

theorem nodup_map_dedupGo (f : α → β) [DecidableEq β] (vistas : List β) (l : List α) :
    ((dedupGo f vistas l).map f).Nodup := by
  induction l generalizing vistas with
  | nil => simp [dedupGo]
  | cons y ys ih =>
    by_cases hy : f y ∈ vistas
    · simpa [dedupGo, if_pos hy] using ih vistas
    · simp only [dedupGo, if_neg hy, List.map_cons, List.nodup_cons]
      refine ⟨fun hmem => ?_, ih (f y :: vistas)⟩
      have := (mem_map_dedupGo f (f y :: vistas) ys (f y)).1 hmem
      exact this.2 (List.mem_cons_self _ _)

theorem countP_dedupGo_zero (f : α → β) [DecidableEq β] (p : α → Bool) (k : β)
    (hp : ∀ x, p x = true → f x = k) (vistas : List β) (l : List α) (hk : k ∈ vistas) :
    (dedupGo f vistas l).countP p = 0 := by
  induction l generalizing vistas with
  | nil => simp [dedupGo]
  | cons y ys ih =>
    by_cases hy : f y ∈ vistas
    · simpa [dedupGo, if_pos hy] using ih vistas hk
    · simp only [dedupGo, if_neg hy]
      have hpy : p y = false := by
        cases hpy : p y
        · rfl
        · exact absurd (hp y hpy ▸ hk) hy
      rw [List.countP_cons, hpy]
      simpa using ih (f y :: vistas) (List.mem_cons_of_mem _ hk)

theorem countP_dedupGo_le_one (f : α → β) [DecidableEq β] (p : α → Bool) (k : β)
    (hp : ∀ x, p x = true → f x = k) (vistas : List β) (l : List α) :
    (dedupGo f vistas l).countP p ≤ 1 := by
  induction l generalizing vistas with
  | nil => simp [dedupGo]
  | cons y ys ih =>
    by_cases hy : f y ∈ vistas
    · simpa [dedupGo, if_pos hy] using ih vistas
    · simp only [dedupGo, if_neg hy]
      cases hpy : p y
      · rw [List.countP_cons, hpy]
        simpa using ih (f y :: vistas)
      · rw [List.countP_cons, hpy]
        have hzero : (dedupGo f (f y :: vistas) ys).countP p = 0 :=
          countP_dedupGo_zero f p k hp _ ys (hp y hpy ▸ List.mem_cons_self _ _)
        simp [hzero]

theorem countP_dedupByKey_le_one (f : α → β) [DecidableEq β] (p : α → Bool) (k : β)
    (hp : ∀ x, p x = true → f x = k) (l : List α) :
    (dedupByKey f l).countP p ≤ 1 :=
  countP_dedupGo_le_one f p k hp [] l

theorem mem_dedupByKey_id [DecidableEq α] (l : List α) (a : α) :
    a ∈ dedupByKey id l ↔ a ∈ l := by
  constructor
  · exact mem_of_mem_dedupGo id [] l a
  · intro h
    have := (mem_map_dedupGo id [] l a).2 ⟨by simpa using h, by simp⟩
    simpa using this

theorem nodup_dedupByKey_id [DecidableEq α] (l : List α) : (dedupByKey id l).Nodup := by
  have := nodup_map_dedupGo id [] l
  simpa using this

theorem countP_flatMap_sum (p : β → Bool) (f : α → List β) (l : List α) :
    (l.flatMap f).countP p = (l.map (fun x => (f x).countP p)).sum := by
  induction l with
  | nil => simp
  | cons y ys ih => simp [List.flatMap_cons, List.countP_append, ih]

theorem length_flatMap_sum (f : α → List β) (l : List α) :
    (l.flatMap f).length = (l.map (fun x => (f x).length)).sum := by
  induction l with
  | nil => simp
  | cons y ys ih => simp [List.flatMap_cons, ih]

theorem length_flatMap_um (f : α → List β) (l : List α) (h : ∀ x ∈ l, (f x).length = 1) :
    (l.flatMap f).length = l.length := by
  induction l with
  | nil => simp
  | cons y ys ih =>
    simp only [List.flatMap_cons, List.length_append, List.length_cons]
    rw [h y (List.mem_cons_self _ _), ih (fun x hx => h x (List.mem_cons_of_mem _ hx))]
    omega

theorem countP_eq_one_of_unique (p : α → Bool) (l : List α) (x : α) (hnd : l.Nodup)
    (hx : x ∈ l) (hpx : p x = true) (huni : ∀ y ∈ l, p y = true → y = x) :
    l.countP p = 1 := by
  induction l with
  | nil => simp at hx
  | cons y ys ih =>
    rcases List.mem_cons.1 hx with rfl | hxs
    · rw [List.countP_cons, hpx]
      have : ys.countP p = 0 := by
        rw [List.countP_eq_zero]
        intro z hz hpz
        have := huni z (List.mem_cons_of_mem _ hz) hpz
        subst this
        exact (List.nodup_cons.1 hnd).1 hz
      simp [this]
    · have hpy : p y = false := by
        cases hpy : p y
        · rfl
        · have := huni y (List.mem_cons_self _ _) hpy
          subst this
          exact absurd hxs (List.nodup_cons.1 hnd).1
      rw [List.countP_cons, hpy]
      simp only [if_neg Bool.false_ne_true, Nat.add_zero]
      exact ih (List.nodup_cons.1 hnd).2 hxs
        (fun z hz hpz => huni z (List.mem_cons_of_mem _ hz) hpz)

theorem soma_indicadora (g : α → ℕ) (l : List α) (k : α) (hnd : l.Nodup) (hk : k ∈ l)
    (hz : ∀ x ∈ l, x ≠ k → g x = 0) : (l.map g).sum = g k := by
  induction l with
  | nil => simp at hk
  | cons y ys ih =>
    rcases List.mem_cons.1 hk with rfl | hks
    · simp only [List.map_cons, List.sum_cons]
      have : (ys.map g).sum = 0 := by
        rw [List.sum_eq_zero]
        intro m hm
        rcases List.mem_map.1 hm with ⟨z, hz2, rfl⟩
        refine hz z (List.mem_cons_of_mem _ hz2) ?_
        rintro rfl
        exact (List.nodup_cons.1 hnd).1 hz2
      omega
    · simp only [List.map_cons, List.sum_cons]
      have hy0 : g y = 0 := by
        refine hz y (List.mem_cons_self _ _) ?_
        rintro rfl
        exact (List.nodup_cons.1 hnd).1 hks
      rw [hy0, ih (List.nodup_cons.1 hnd).2 hks
        (fun z hz2 hzk => hz z (List.mem_cons_of_mem _ hz2) hzk)]
      omega

theorem mapExcept_ok_de (F : α → Except ε β) (f : α → β) (l : List α)
    (h : ∀ x ∈ l, F x = Except.ok (f x)) : mapExcept F l = Except.ok (l.map f) := by
  induction l with
  | nil => simp [mapExcept]
  | cons y ys ih =>
    simp only [mapExcept, h y (List.mem_cons_self _ _),
      ih (fun x hx => h x (List.mem_cons_of_mem _ hx)), List.map_cons]

theorem getV_setV_mesma (r : Row) (c : String) (v : Val) : getV (setV r c v) c = some v := by
  induction r with
  | nil => simp [setV, getV]
  | cons par resto ih =>
    obtain ⟨c1, w⟩ := par
    by_cases hc : c1 = c
    · simp [setV, hc, getV]
    · simp [setV, hc, getV, ih]

theorem getV_setV_outra (r : Row) (c c2 : String) (v : Val) (h : c2 ≠ c) :
    getV (setV r c v) c2 = getV r c2 := by
  induction r with
  | nil =>
    simp only [setV, getV, beq_iff_eq]
    rw [if_neg (fun hh => h hh.symm)]
  | cons par resto ih =>
    obtain ⟨c1, w⟩ := par
    by_cases hc : c1 = c
    · subst hc
      simp only [setV, beq_self_eq_true, if_pos, getV]
      rw [if_neg (by simpa using fun hh => h hh.symm), if_neg (by simpa using fun hh => h hh.symm)]
    · simp only [setV, beq_iff_eq, if_neg hc, getV]
      by_cases hc2 : c1 = c2
      · simp [hc2]
      · simp [hc2, ih]

theorem chave_setV_valor (r : Row) (v : Val) : chave (setV r "ValorDespesas" v) = chave r := by
  unfold chave
  rw [getV_setV_outra r "ValorDespesas" "CNPJ" v (by decide),
    getV_setV_outra r "ValorDespesas" "RazaoSocial" v (by decide),
    getV_setV_outra r "ValorDespesas" "Trimestre" v (by decide),
    getV_setV_outra r "ValorDespesas" "Ano" v (by decide)]

theorem chaveValida_setV_valor (r : Row) (v : Val) :
    chaveValida (setV r "ValorDespesas" v) = chaveValida r := by
  unfold chaveValida
  rw [getV_setV_outra r "ValorDespesas" "CNPJ" v (by decide),
    getV_setV_outra r "ValorDespesas" "RazaoSocial" v (by decide),
    getV_setV_outra r "ValorDespesas" "Trimestre" v (by decide),
    getV_setV_outra r "ValorDespesas" "Ano" v (by decide)]

theorem mem_paresIndices (n i j : ℕ) : (i, j) ∈ paresIndices n ↔ i < j ∧ j < n := by
  constructor
  · intro hmem
    rcases List.mem_flatMap.1 hmem with ⟨a, ha, hin⟩
    rcases List.mem_map.1 hin with ⟨d, hd, heq⟩
    have h1 : a = i := congrArg Prod.fst heq
    have h2 : a + 1 + d = j := congrArg Prod.snd heq
    have ha2 := List.mem_range.1 ha
    have hd2 := List.mem_range.1 hd
    omega
  · rintro ⟨hij, hjn⟩
    have h1 : i ∈ List.range n := List.mem_range.2 (by omega)
    have h2 : j - i - 1 ∈ List.range (n - (i + 1)) := List.mem_range.2 (by omega)
    have h3 : (i, j) ∈ (List.range (n - (i + 1))).map (fun d => (i, i + 1 + d)) := by
      have hj : i + 1 + (j - i - 1) = j := by omega
      refine List.mem_map.2 ⟨j - i - 1, h2, ?_⟩
      show (i, i + 1 + (j - i - 1)) = (i, j)
      rw [hj]
    exact List.mem_flatMap_of_mem h1 h3

theorem nodup_paresIndices (n : ℕ) : (paresIndices n).Nodup := by
  rw [paresIndices, List.nodup_flatMap]
  constructor
  · intro i _
    refine List.Nodup.map ?_ (List.nodup_range _)
    intro a b hab
    have h2 : i + 1 + a = i + 1 + b := congrArg Prod.snd hab
    omega
  · refine (List.pairwise_lt_range n).imp ?_
    intro a b hab p hp hq
    rcases List.mem_map.1 hp with ⟨d1, hd1, rfl⟩
    rcases List.mem_map.1 hq with ⟨d2, hd2, heq⟩
    have h1 : b = a := congrArg Prod.fst heq
    omega

theorem soma_lista_range (g : ℕ → ℕ) (n : ℕ) :
    ((List.range n).map g).sum = (Finset.range n).sum g := by
  induction n with
  | zero => simp
  | succ m ih => simp [List.range_succ, Finset.sum_range_succ, ih]

theorem length_paresIndices (n : ℕ) : (paresIndices n).length = n.choose 2 := by
  rw [paresIndices, length_flatMap_sum]
  have hmap : (List.range n).map (fun i =>
      ((List.range (n - (i + 1))).map (fun d => (i, i + 1 + d))).length) =
      (List.range n).map (fun i => n - (i + 1)) := by
    refine List.map_congr_left ?_
    intro i _
    simp
  rw [hmap, soma_lista_range]
  have hcongr : (Finset.range n).sum (fun i => n - (i + 1)) =
      (Finset.range n).sum (fun i => n - 1 - i) := by
    refine Finset.sum_congr rfl ?_
    intro i _
    omega
  rw [hcongr, Finset.sum_range_reflect (fun i => i) n]
  have hg := Finset.sum_range_id_mul_two n
  have hc := Nat.choose_two_right n
  omega

theorem resolveColumn_eq_some_iff (cols cands : List String) (c : String) :
    resolveColumn cols cands = some c ↔
      ∃ antes depois, cands = antes ++ c :: depois ∧ c ∈ cols ∧
        ∀ outro ∈ antes, outro ∉ cols := by
  induction cands with
  | nil =>
    simp only [resolveColumn, List.find?_nil]
    constructor
    · intro h; cases h
    · rintro ⟨antes, depois, h, -, -⟩
      exact absurd h (by simp)
  | cons x xs ih =>
    by_cases hx : x ∈ cols
    · simp only [resolveColumn, List.find?_cons, decide_eq_true hx]
      constructor
      · intro h
        have : x = c := by simpa using h
        subst this
        exact ⟨[], xs, rfl, hx, by simp⟩
      · rintro ⟨antes, depois, heq, hc, hantes⟩
        cases antes with
        | nil =>
          simp only [List.nil_append, List.cons.injEq] at heq
          simp [heq.1]
        | cons a resto =>
          simp only [List.cons_append, List.cons.injEq] at heq
          exact absurd (heq.1 ▸ hx) (hantes a (List.mem_cons_self _ _))
    · simp only [resolveColumn, List.find?_cons, decide_eq_false hx]
      simp only [resolveColumn] at ih
      rw [ih]
      constructor
      · rintro ⟨antes, depois, heq, hc, hantes⟩
        refine ⟨x :: antes, depois, by simp [heq], hc, ?_⟩
        intro outro houtro
        rcases List.mem_cons.1 houtro with rfl | h
        · exact hx
        · exact hantes outro h
      · rintro ⟨antes, depois, heq, hc, hantes⟩
        cases antes with
        | nil =>
          simp only [List.nil_append, List.cons.injEq] at heq
          exact absurd (heq.1 ▸ hc) hx
        | cons a resto =>
          simp only [List.cons_append, List.cons.injEq] at heq
          exact ⟨resto, depois, heq.2, hc, fun outro h => hantes outro (List.mem_cons_of_mem _ h)⟩

theorem mem_keys_de_getV (r : Row) (c : String) (v : Val) (hv : getV r c = some v) :
    c ∈ r.map (fun par => par.1) := by
  induction r with
  | nil => simp [getV] at hv
  | cons par resto ih =>
    obtain ⟨c1, w⟩ := par
    by_cases hc : c1 = c
    · simp [hc]
    · simp only [getV, beq_iff_eq, if_neg hc] at hv
      simp only [List.map_cons, List.mem_cons]
      exact Or.inr (ih hv)

theorem mem_unionKeys_de_getV (dados : List Row) (r : Row) (c : String) (v : Val)
    (hr : r ∈ dados) (hv : getV r c = some v) : c ∈ unionKeys dados := by
  rw [unionKeys, mem_dedupByKey_id]
  exact List.mem_flatMap_of_mem hr (mem_keys_de_getV r c v hv)
theorem somaPonderada_espec (ds ps : List ℕ) (h : ds.length = ps.length) :
    somaPonderada ds ps = somaEspec ds ps := by
  unfold somaPonderada somaEspec
  induction ds generalizing ps with
  | nil => simp
  | cons d resto ih =>
    cases ps with
    | nil => simp at h
    | cons p rps =>
      simp only [List.zipWith_cons_cons, List.sum_cons, List.length_cons]
      rw [ih rps (by simpa using h), Finset.sum_range_succ']
      simp only [List.getD_cons_succ, List.getD_cons_zero]
      omega

theorem digitoVerificador_espec (ds ps : List ℕ) (h : ds.length = ps.length) :
    digitoVerificador ds ps = digitoEspec ds ps := by
  unfold digitoVerificador digitoEspec
  rw [somaPonderada_espec ds ps h]

theorem all_iguais_iff (ds : List ℕ) (hne : ds ≠ []) :
    ((ds.all (fun d => d == ds.headD 0)) = true) ↔
      ¬∃ a ∈ ds, ∃ b ∈ ds, a ≠ b := by
  simp only [List.all_eq_true, beq_iff_eq]
  constructor
  · rintro h ⟨a, ha, b, hb, hab⟩
    exact hab ((h a ha).trans (h b hb).symm)
  · intro h d hd
    by_contra hne2
    refine h ⟨d, hd, ds.headD 0, ?_, hne2⟩
    cases ds with
    | nil => exact absurd rfl hne
    | cons x xs =>
      simp only [List.headD_cons]
      exact List.mem_cons_self x xs

/-- C2: `validar_cnpj` returns true exactly when, after stripping the non digit
characters, 14 digits remain, they are not all identical, and the digits at the
0-indexed positions 12 and 13 equal the two check digits computed by the
weighted sum modulo 11 passes over the first 12 and first 13 digits (check
digit 0 when the sum mod 11 is below 2, else 11 minus it).  The function is a
total Lean function of the input string: it is pure and raises nothing. -/
theorem C2_validar_cnpj_caracterizacao (s : String) :
    validar_cnpj s = true ↔
      ((cnpjDigitos s).length = 14 ∧
       (∃ a ∈ cnpjDigitos s, ∃ b ∈ cnpjDigitos s, a ≠ b) ∧
       (cnpjDigitos s).getD 12 0 = digitoEspec ((cnpjDigitos s).take 12) pesosPrimeiro ∧
       (cnpjDigitos s).getD 13 0 = digitoEspec ((cnpjDigitos s).take 13) pesosSegundo) := by
  have hlen12 : pesosPrimeiro.length = 12 := by decide
  have hlen13 : pesosSegundo.length = 13 := by decide
  simp only [validar_cnpj]
  constructor
  · intro hv
    by_cases h14 : (cnpjDigitos s).length = 14
    · have hne : cnpjDigitos s ≠ [] := by
        intro h0
        rw [h0] at h14
        simp at h14
      have ht12 : ((cnpjDigitos s).take 12).length = pesosPrimeiro.length := by
        rw [List.length_take, h14, hlen12]
        omega
      have ht13 : ((cnpjDigitos s).take 13).length = pesosSegundo.length := by
        rw [List.length_take, h14, hlen13]
        omega
      rw [if_neg (by simp [h14])] at hv
      by_cases hall : ((cnpjDigitos s).all (fun d => d == (cnpjDigitos s).headD 0)) = true
      · rw [if_pos hall] at hv
        exact absurd hv (by simp)
      · rw [if_neg hall] at hv
        by_cases hb1 : (cnpjDigitos s).getD 12 0 =
            digitoVerificador ((cnpjDigitos s).take 12) pesosPrimeiro
        · rw [if_neg (by simp only [bne_iff_ne, ne_eq, not_not]; exact hb1)] at hv
          by_cases hb2 : (cnpjDigitos s).getD 13 0 =
              digitoVerificador ((cnpjDigitos s).take 13) pesosSegundo
          · refine ⟨h14, ?_, ?_, ?_⟩
            · by_contra hno
              exact hall ((all_iguais_iff _ hne).2 hno)
            · rw [hb1]
              exact digitoVerificador_espec _ _ ht12
            · rw [hb2]
              exact digitoVerificador_espec _ _ ht13
          · rw [if_pos (by simp only [bne_iff_ne, ne_eq]; exact hb2)] at hv
            exact absurd hv (by simp)
        · rw [if_pos (by simp only [bne_iff_ne, ne_eq]; exact hb1)] at hv
          exact absurd hv (by simp)
    · rw [if_pos (by simp [bne_iff_ne, h14])] at hv
      exact absurd hv (by simp)
  · rintro ⟨h14, hab, hc1, hc2⟩
    have hne : cnpjDigitos s ≠ [] := by
      intro h0
      rw [h0] at h14
      simp at h14
    have ht12 : ((cnpjDigitos s).take 12).length = pesosPrimeiro.length := by
      rw [List.length_take, h14, hlen12]
      omega
    have ht13 : ((cnpjDigitos s).take 13).length = pesosSegundo.length := by
      rw [List.length_take, h14, hlen13]
      omega
    rw [if_neg (by simp [h14]), if_neg ?condall, if_neg ?cond1, if_neg ?cond2]
    case condall =>
      intro hall
      exact (all_iguais_iff _ hne).1 hall hab
    case cond1 =>
      rw [digitoVerificador_espec _ _ ht12]
      simp only [bne_iff_ne, ne_eq, not_not]
      exact hc1
    case cond2 =>
      rw [digitoVerificador_espec _ _ ht13]
      simp only [bne_iff_ne, ne_eq, not_not]
      exact hc2

/-- C8: the code contradicts its documented intent on decimal comma cells with
thousands separators.  A comma-only monetary cell such as `1234,56` parses to
1234.56 and a non parseable cell degrades to the missing value NaN, but the
documented Brazilian format `1.234,56` becomes `1.234.56` after the comma
replacement and coerces to NaN instead of 1234.56. -/
theorem C8_celula_monetaria :
    toNumericCell (Val.str "1234,56") = Val.num (123456 / 100) ∧
    substVirgula "1.234,56" = "1.234.56" ∧
    parsePyFloat "1.234.56" = none ∧
    toNumericCell (Val.str "1.234,56") = Val.na ∧
    toNumericCell (Val.str "abc") = Val.na := by
  refine ⟨?_, ?_, ?_, ?_, ?_⟩
  · simp +decide [toNumericCell, substVirgula, parsePyFloat, aparaEspacos,
      parseDecimalSemSinal, digitosQ, espacoBranco, pdRound2, roundHalfEven]
    norm_num
  · decide
  · simp +decide [parsePyFloat, aparaEspacos, parseDecimalSemSinal, espacoBranco]
  · simp +decide [toNumericCell, substVirgula, parsePyFloat, aparaEspacos,
      parseDecimalSemSinal, espacoBranco]
  · simp +decide [toNumericCell, substVirgula, parsePyFloat, aparaEspacos,
      parseDecimalSemSinal, espacoBranco]

theorem floor_de (q : ℚ) (n : ℤ) (h1 : (n : ℚ) ≤ q) (h2 : q < n + 1) : Int.floor q = n := by
  rw [Int.floor_eq_iff]
  exact ⟨h1, h2⟩

theorem roundHalfEven_baixo (q : ℚ) (n : ℤ) (h1 : (n : ℚ) ≤ q) (h2 : q - n < 1 / 2) :
    roundHalfEven q = n := by
  have hfl : Int.floor q = n := floor_de q n h1 (by linarith)
  simp only [roundHalfEven, hfl]
  rw [if_pos h2]

theorem roundHalfEven_cima (q : ℚ) (n : ℤ) (h1 : (n : ℚ) ≤ q) (h2 : q < n + 1)
    (h3 : 1 / 2 < q - n) : roundHalfEven q = n + 1 := by
  have hfl : Int.floor q = n := floor_de q n h1 h2
  simp only [roundHalfEven, hfl]
  rw [if_neg (by linarith), if_pos h3]

theorem roundHalfEven_empate (q : ℚ) (n : ℤ) (h : q = (n : ℚ) + 1 / 2) :
    roundHalfEven q = if 2 ∣ n then n else n + 1 := by
  have hfl : Int.floor q = n := floor_de q n (by rw [h]; linarith) (by rw [h]; linarith)
  simp only [roundHalfEven, hfl]
  rw [if_neg (by rw [h]; norm_num), if_neg (by rw [h]; norm_num)]

theorem pdRound2_baixo (q : ℚ) (n : ℤ) (h1 : (n : ℚ) ≤ q * 100) (h2 : q * 100 - n < 1 / 2) :
    pdRound2 q = (n : ℚ) / 100 := by
  rw [pdRound2, roundHalfEven_baixo (q * 100) n h1 h2]

theorem pdRound2_cima (q : ℚ) (n : ℤ) (h1 : (n : ℚ) ≤ q * 100) (h2 : q * 100 < n + 1)
    (h3 : 1 / 2 < q * 100 - n) : pdRound2 q = ((n : ℚ) + 1) / 100 := by
  rw [pdRound2, roundHalfEven_cima (q * 100) n h1 h2 h3]
  push_cast
  ring

theorem pdRound2_empate (q : ℚ) (n : ℤ) (h : q * 100 = (n : ℚ) + 1 / 2) :
    pdRound2 q = (if 2 ∣ n then (n : ℚ) else (n : ℚ) + 1) / 100 := by
  rw [pdRound2, roundHalfEven_empate (q * 100) n h]
  by_cases hpar : 2 ∣ n
  · rw [if_pos hpar, if_pos hpar]
  · rw [if_neg hpar, if_neg hpar]
    push_cast
    ring

theorem pdRound2_centesimos (n : ℤ) : pdRound2 ((n : ℚ) / 100) = (n : ℚ) / 100 := by
  refine pdRound2_baixo _ n ?_ ?_
  · rw [div_mul_cancel₀ _ (by norm_num : (100 : ℚ) ≠ 0)]
  · rw [div_mul_cancel₀ _ (by norm_num : (100 : ℚ) ≠ 0)]
    norm_num

/-- C9 fails as stated: the rounding applied to parsed monetary cells and at
the subtraction is round half to even (numpy), not standard round half up.  At
opening 0 and closing 0.125 the code model yields the expense 0.12 while round
half up at 2 decimals yields 0.13. -/
theorem C9_contraexemplo :
    subtrairVal (toNumericCell (Val.str "0.125")) (toNumericCell (Val.str "0")) =
      Val.num (12 / 100) ∧
    roundHalfUp2 (125 / 1000 - 0) = 13 / 100 ∧
    (12 / 100 : ℚ) ≠ (13 / 100 : ℚ) := by
  refine ⟨?_, ?_, ?_⟩
  · have hp1 : parsePyFloat (substVirgula "0.125") = some (125 / 1000) := by
      simp +decide [substVirgula, parsePyFloat, aparaEspacos, parseDecimalSemSinal,
        digitosQ, espacoBranco]
      norm_num
    have hp0 : parsePyFloat (substVirgula "0") = some 0 := by
      simp +decide [substVirgula, parsePyFloat, aparaEspacos, parseDecimalSemSinal,
        digitosQ, espacoBranco]
    have hr1 : pdRound2 (125 / 1000) = 12 / 100 := by
      rw [pdRound2_empate (125 / 1000) 12 (by norm_num)]
      norm_num
    have hr0 : pdRound2 0 = 0 := by
      have h := pdRound2_baixo 0 0 (by norm_num) (by norm_num)
      simpa using h
    have hsub : pdRound2 (12 / 100 - 0) = 12 / 100 := by
      rw [sub_zero]
      have h := pdRound2_centesimos 12
      simpa using h
    simp only [toNumericCell, hp1, hp0, hr1, hr0, subtrairVal, hsub]
  · rw [roundHalfUp2, show ((125 : ℚ) / 1000 - 0) * 100 + 1 / 2 = 13 by norm_num]
    norm_num
  · norm_num

/-- C9 (amended): both monetary columns are rounded to 2 decimals immediately
after parsing and the derived expense is rounded to 2 decimals at the point of
subtraction, in every case with round half to even (the numpy rounding of
`Series.round`), not standard round half up; under exact decimal arithmetic the
spec example row with opening 100.00 and closing 250.555 still yields 150.56. -/
theorem C9_arredondamento_meio_par (sf si : String) (qf qi : ℚ)
    (hf : parsePyFloat (substVirgula sf) = some qf)
    (hi : parsePyFloat (substVirgula si) = some qi) :
    toNumericCell (Val.str sf) = Val.num (pdRound2 qf) ∧
    toNumericCell (Val.str si) = Val.num (pdRound2 qi) ∧
    subtrairVal (toNumericCell (Val.str sf)) (toNumericCell (Val.str si)) =
      Val.num (pdRound2 (pdRound2 qf - pdRound2 qi)) := by
  simp [toNumericCell, hf, hi, subtrairVal]

/-- C9 witness: the spec example, opening 100.00 and closing 250.555, gives the
expense 150.56 (= 15056/100). -/
theorem C9_testemunha :
    (subtrairVal (toNumericCell (Val.str "250.555")) (toNumericCell (Val.str "100.00")) =
      Val.num (pdRound2 (pdRound2 (250555 / 1000) - pdRound2 (10000 / 100)))) ∧
    pdRound2 (pdRound2 (250555 / 1000) - pdRound2 (10000 / 100)) = 15056 / 100 := by
  have hf : parsePyFloat (substVirgula "250.555") = some (250555 / 1000) := by
    simp +decide [substVirgula, parsePyFloat, aparaEspacos, parseDecimalSemSinal,
      digitosQ, espacoBranco]
    norm_num
  have hi : parsePyFloat (substVirgula "100.00") = some (10000 / 100) := by
    simp +decide [substVirgula, parsePyFloat, aparaEspacos, parseDecimalSemSinal,
      digitosQ, espacoBranco]
    norm_num
  refine ⟨(C9_arredondamento_meio_par "250.555" "100.00" (250555 / 1000) (10000 / 100)
    hf hi).2.2, ?_⟩
  have h1 : pdRound2 (250555 / 1000) = 25056 / 100 := by
    rw [pdRound2_empate (250555 / 1000) 25055 (by norm_num)]
    norm_num
  have h2 : pdRound2 (10000 / 100) = 10000 / 100 := by
    have h := pdRound2_centesimos 10000
    simpa using h
  have h3 : pdRound2 (25056 / 100 - 10000 / 100) = 15056 / 100 := by
    rw [show (25056 : ℚ) / 100 - 10000 / 100 = ((15056 : ℤ) : ℚ) / 100 by push_cast; ring]
    rw [pdRound2_centesimos 15056]
    norm_num
  rw [h1, h2, h3]

/-- C6: the schema resolver returns the first candidate name, in the priority
order of the candidate list, that occurs among the table columns (for a table
with column REG_ANS and candidates [REGISTRO_OPERADORA, REG_ANS] it resolves to
REG_ANS); and whenever any of the four logical columns of
`correlacionar_dados` fails to resolve, the function logs a warning and
returns the empty record list instead of raising. -/
theorem C6_resolucao_colunas (dfDespesas dfOperadoras : DF) :
    (∀ (cols cands : List String) (c : String),
       resolveColumn cols cands = some c ↔
         ∃ antes depois, cands = antes ++ c :: depois ∧ c ∈ cols ∧
           ∀ outro ∈ antes, outro ∉ cols) ∧
    (resolveColumn dfDespesas.cols possiveis_nomes_despesas = none →
       correlacionar_dados dfDespesas dfOperadoras = Except.ok []) ∧
    (resolveColumn dfOperadoras.cols possiveis_nomes_operadoras = none →
       correlacionar_dados dfDespesas dfOperadoras = Except.ok []) ∧
    (colunaCnpjDe dfOperadoras = none →
       correlacionar_dados dfDespesas dfOperadoras = Except.ok []) ∧
    (colunaRazaoDe dfOperadoras = none →
       correlacionar_dados dfDespesas dfOperadoras = Except.ok []) ∧
    resolveColumn ["REG_ANS"] ["REGISTRO_OPERADORA", "REG_ANS"] = some "REG_ANS" := by
  refine ⟨resolveColumn_eq_some_iff, ?_, ?_, ?_, ?_, by decide⟩
  · intro h
    simp [correlacionar_dados, h]
  · intro h
    cases h1 : resolveColumn dfDespesas.cols possiveis_nomes_despesas with
    | none => simp [correlacionar_dados, h1]
    | some cd => simp [correlacionar_dados, h1, h]
  · intro h
    cases h1 : resolveColumn dfDespesas.cols possiveis_nomes_despesas with
    | none => simp [correlacionar_dados, h1]
    | some cd =>
      cases h2 : resolveColumn dfOperadoras.cols possiveis_nomes_operadoras with
      | none => simp [correlacionar_dados, h1, h2]
      | some co => simp [correlacionar_dados, h1, h2, h]
  · intro h
    cases h1 : resolveColumn dfDespesas.cols possiveis_nomes_despesas with
    | none => simp [correlacionar_dados, h1]
    | some cd =>
      cases h2 : resolveColumn dfOperadoras.cols possiveis_nomes_operadoras with
      | none => simp [correlacionar_dados, h1, h2]
      | some co =>
        cases h3 : colunaCnpjDe dfOperadoras with
        | none => simp [correlacionar_dados, h1, h2, h3]
        | some cc => simp [correlacionar_dados, h1, h2, h3, h]

/-- C10: the per file pipeline entry point never propagates an exception: the
wrapper is a total function, and whenever the try-block pipeline (reading the
expense file, then correlating) raises, the exception is caught and the
function returns the empty list. -/
theorem C10_envoltorio_nao_propaga (caminho : String) (leitura : Leitura)
    (dfOperadoras : DF) (trimestre ano : Option ℕ) (e : Excecao)
    (h : pipelineDespesas caminho leitura dfOperadoras = Except.error e) :
    correlacionar_despesas_com_operadoras caminho leitura dfOperadoras trimestre ano = [] := by
  unfold correlacionar_despesas_com_operadoras
  rw [h]

/-- C10 witness: an unsupported file extension aborts the file, not the run. -/
theorem C10_testemunha :
    correlacionar_despesas_com_operadoras "demonstracao.pdf" (Leitura.tabela dfDespesasEx)
      dfRegistroEx (some 1) (some 2023) = [] :=
  C10_envoltorio_nao_propaga "demonstracao.pdf" (Leitura.tabela dfDespesasEx) dfRegistroEx
    (some 1) (some 2023) Excecao.formatoNaoSuportado (by rfl)

/-- C7: with the four columns resolved, `correlacionar_dados` is the inner
join on the resolved registry id columns: it emits exactly one record per
(expense row, matching registry row) pair, so an expense row with no match
contributes nothing and an expense row with k matches contributes exactly k
records — the output length is the sum, over the expense rows, of the number
of matching registry rows. -/
theorem C7_correlaciona_por_par (dfDespesas dfOperadoras : DF) (cd co cc cr : String)
    (h1 : resolveColumn dfDespesas.cols possiveis_nomes_despesas = some cd)
    (h2 : resolveColumn dfOperadoras.cols possiveis_nomes_operadoras = some co)
    (h3 : colunaCnpjDe dfOperadoras = some cc)
    (h4 : colunaRazaoDe dfOperadoras = some cr)
    (h5 : "DESPESA" ∈ dfDespesas.cols) :
    correlacionar_dados dfDespesas dfOperadoras = Except.ok
      (dfDespesas.rows.flatMap (fun r =>
        ((dfOperadoras.rows.filter (fun o => cellVal o co == cellVal r cd)).map
          (registroCorrelacionado co cc cr r)))) ∧
    ∀ registros, correlacionar_dados dfDespesas dfOperadoras = Except.ok registros →
      registros.length = (dfDespesas.rows.map
        (fun r => (dfOperadoras.rows.filter
          (fun o => cellVal o co == cellVal r cd)).length)).sum := by
  have hmain : correlacionar_dados dfDespesas dfOperadoras = Except.ok
      (dfDespesas.rows.flatMap (fun r =>
        ((dfOperadoras.rows.filter (fun o => cellVal o co == cellVal r cd)).map
          (registroCorrelacionado co cc cr r)))) := by
    simp [correlacionar_dados, h1, h2, h3, h4, h5]
  refine ⟨hmain, ?_⟩
  intro registros hreg
  rw [hmain] at hreg
  have hr : registros = dfDespesas.rows.flatMap (fun r =>
      ((dfOperadoras.rows.filter (fun o => cellVal o co == cellVal r cd)).map
        (registroCorrelacionado co cc cr r))) := by
    cases hreg
    rfl
  rw [hr, length_flatMap_sum]
  refine congrArg List.sum (List.map_congr_left ?_)
  intro r _
  rw [List.length_map]

/-- C7 witness: one expense row keyed 111 against two registry rows keyed 111
produces exactly 2 records. -/
theorem C7_testemunha :
    (correlacionar_dados dfDespesasEx dfRegistroEx = Except.ok
      (dfDespesasEx.rows.flatMap (fun r =>
        ((dfRegistroEx.rows.filter (fun o => cellVal o "REG_ANS" == cellVal r "REG_ANS")).map
          (registroCorrelacionado "REG_ANS" "CNPJ" "Razao_Social" r))))) ∧
    ∀ registros, correlacionar_dados dfDespesasEx dfRegistroEx = Except.ok registros →
      registros.length = 2 := by
  have h := C7_correlaciona_por_par dfDespesasEx dfRegistroEx "REG_ANS" "REG_ANS" "CNPJ"
    "Razao_Social" (by rfl) (by rfl) (by rfl) (by rfl) (by decide)
  refine ⟨h.1, ?_⟩
  intro registros hreg
  rw [h.2 registros hreg]
  decide

/-- C1: under the column hypotheses, the enrichment join deduplicates the
registry by CNPJ keeping first occurrences, left joins on CNPJ, adds exactly
the columns RegistroANS, Modalidade, UF, gives every unmatched row the literal
sentinel cells, and returns exactly as many rows as the consolidated input;
the row count check in the function therefore passes and the join cardinality
error (which the source raises and never catches) is never produced on this
path. -/
theorem C1_juntar_preserva_linhas (dfDados dfOperadoras : DF) (colunaRegistro : String)
    (h1 : "CNPJ" ∈ dfDados.cols) (h2 : "CNPJ" ∈ dfOperadoras.cols)
    (h3 : resolveColumn dfOperadoras.cols possiveis_nomes_registro = some colunaRegistro)
    (h4 : "Modalidade" ∈ dfOperadoras.cols) (h5 : "UF" ∈ dfOperadoras.cols) :
    ∃ saida, juntar_dados_com_operadoras dfDados dfOperadoras = Except.ok saida ∧
      saida.rows.length = dfDados.rows.length ∧
      saida.cols = dfDados.cols ++ ["RegistroANS", "Modalidade", "UF"] ∧
      ∀ linha ∈ dfDados.rows, correspondencias dfOperadoras colunaRegistro linha = [] →
        linha ++ [("RegistroANS", semMatch), ("Modalidade", semMatch), ("UF", semMatch)]
          ∈ saida.rows := by
  have hcorr_le : ∀ linha : Row,
      (correspondencias dfOperadoras colunaRegistro linha).length ≤ 1 := by
    intro linha
    unfold correspondencias operadorasFiltradas operadorasUnicas
    rw [List.filter_map, List.length_map, ← List.countP_eq_length_filter]
    refine countP_dedupByKey_le_one (fun o => cellVal o "CNPJ") _
      (cellVal linha "CNPJ") ?_ dfOperadoras.rows
    intro o ho
    have hcell : cellVal ([("CNPJ", cellVal o "CNPJ"),
        ("RegistroANS", cellVal o colunaRegistro), ("Modalidade", cellVal o "Modalidade"),
        ("UF", cellVal o "UF")] : Row) "CNPJ" = cellVal o "CNPJ" := by
      simp [cellVal, getV]
    simp only [Function.comp_apply, hcell] at ho
    exact eq_of_beq ho
  have hlen : (linhasJuntadas dfDados dfOperadoras colunaRegistro).length =
      dfDados.rows.length := by
    unfold linhasJuntadas
    refine length_flatMap_um _ _ ?_
    intro linha _
    cases hcase : correspondencias dfOperadoras colunaRegistro linha with
    | nil => simp
    | cons o resto =>
      have hle := hcorr_le linha
      rw [hcase] at hle
      simp only [List.length_cons] at hle
      have hresto : resto = [] := by
        cases resto with
        | nil => rfl
        | cons a b => simp at hle
      subst hresto
      simp
  have hjuntar : juntar_dados_com_operadoras dfDados dfOperadoras = Except.ok
      ⟨dfDados.cols ++ ["RegistroANS", "Modalidade", "UF"],
       linhasJuntadas dfDados dfOperadoras colunaRegistro⟩ := by
    simp only [juntar_dados_com_operadoras, if_neg (not_not_intro h1),
      if_neg (not_not_intro h2), h3, if_neg (not_not_intro h4), if_neg (not_not_intro h5), hlen]
    simp
  refine ⟨_, hjuntar, hlen, rfl, ?_⟩
  intro linha hl hvazio
  show _ ∈ linhasJuntadas dfDados dfOperadoras colunaRegistro
  unfold linhasJuntadas
  refine List.mem_flatMap_of_mem hl ?_
  rw [hvazio]
  exact List.mem_cons_self _ _

/-- C1 witness: a consolidated table with a matched and an unmatched row,
against a registry with a duplicated CNPJ. -/
theorem C1_testemunha :
    ∃ saida, juntar_dados_com_operadoras dfConsolidadoEx dfOperadorasEx = Except.ok saida ∧
      saida.rows.length = dfConsolidadoEx.rows.length ∧
      saida.cols = dfConsolidadoEx.cols ++ ["RegistroANS", "Modalidade", "UF"] ∧
      ∀ linha ∈ dfConsolidadoEx.rows, correspondencias dfOperadorasEx "REG_ANS" linha = [] →
        linha ++ [("RegistroANS", semMatch), ("Modalidade", semMatch), ("UF", semMatch)]
          ∈ saida.rows :=
  C1_juntar_preserva_linhas dfConsolidadoEx dfOperadorasEx "REG_ANS"
    (by decide) (by decide) (by rfl) (by decide) (by decide)

/-- C5 fails as stated: on a record set whose valid records lack the Trimestre
and Ano columns, `consolidar_dados_em_csv` reports the missing column together
with the available columns but returns normally (the `KeyError` handler does
not re-raise), so no schema error reaches the caller. -/
theorem C5_contraexemplo :
    consolidar_dados_em_csv exemploColunaFaltante =
      ResultadoConsolidacao.colunaNaoEncontrada ["CNPJ", "RazaoSocial", "ValorDespesas"] ∧
    eLancada (consolidar_dados_em_csv exemploColunaFaltante) = false := by
  refine ⟨?_, ?_⟩ <;> decide

/-- C5 (amended): during consolidation a missing expected column after
grouping is reported together with the list of actually available columns and
aborts the consolidation (no consolidated output is produced), but — like any
other exception of this stage, for example an unparseable expense cell — it is
caught and logged, converting to a no-op normal return rather than being
propagated to the caller as an exception. -/
theorem C5_coluna_ausente_vira_log (dados : List Row)
    (h1 : validosDe dados ≠ [])
    (h2 : colunasExistentesDe dados ≠ colunasDesejadas)
    (h3 : (etapaArredondar dados).isOk = true) :
    consolidar_dados_em_csv dados =
      ResultadoConsolidacao.colunaNaoEncontrada (unionKeys dados) ∧
    eLancada (consolidar_dados_em_csv dados) = false ∧
    (∀ outros : List Row, validosDe outros ≠ [] →
       (etapaArredondar outros).isOk = false →
       consolidar_dados_em_csv outros = ResultadoConsolidacao.outroErro ∧
       eLancada (consolidar_dados_em_csv outros) = false) := by
  have hmain : consolidar_dados_em_csv dados =
      ResultadoConsolidacao.colunaNaoEncontrada (unionKeys dados) := by
    obtain ⟨arredondados, harred⟩ : ∃ l, etapaArredondar dados = Except.ok l := by
      cases he : etapaArredondar dados with
      | error e =>
        rw [he] at h3
        simp [Except.isOk, Except.toBool] at h3
      | ok l => exact ⟨l, rfl⟩
    unfold consolidar_dados_em_csv
    rw [if_neg (by simp only [List.isEmpty_iff]; exact h1)]
    simp only [harred]
    rw [if_pos h2]
  refine ⟨hmain, by rw [hmain]; rfl, ?_⟩
  intro outros ho1 ho2
  obtain ⟨e, he⟩ : ∃ e, etapaArredondar outros = Except.error e := by
    cases he : etapaArredondar outros with
    | error e => exact ⟨e, rfl⟩
    | ok l =>
      rw [he] at ho2
      simp [Except.isOk, Except.toBool] at ho2
  have houtro : consolidar_dados_em_csv outros = ResultadoConsolidacao.outroErro := by
    unfold consolidar_dados_em_csv
    rw [if_neg (by simp only [List.isEmpty_iff]; exact ho1)]
    simp only [he]
  exact ⟨houtro, by rw [houtro]; rfl⟩

/-- C5 witness: the amended behaviour at the concrete record set missing the
Trimestre and Ano columns. -/
theorem C5_testemunha :
    consolidar_dados_em_csv exemploColunaFaltante =
      ResultadoConsolidacao.colunaNaoEncontrada (unionKeys exemploColunaFaltante) ∧
    eLancada (consolidar_dados_em_csv exemploColunaFaltante) = false ∧
    (∀ outros : List Row, validosDe outros ≠ [] →
       (etapaArredondar outros).isOk = false →
       consolidar_dados_em_csv outros = ResultadoConsolidacao.outroErro ∧
       eLancada (consolidar_dados_em_csv outros) = false) :=
  C5_coluna_ausente_vira_log exemploColunaFaltante (by decide) (by decide) (by decide)

/-- C4 fails as stated: in a group with rows (Alpha, 100), (Alpha, 110),
(Beta, 200), the single conflict row pairs Alpha with Beta but carries 110 —
the expense of the second row of the group, an Alpha row — as ValorDespesas2,
while the first expense encountered for the name Beta is 200. -/
theorem C4_contraexemplo :
    salvar_cnpjs_duplicados exemploConflito =
      [⟨Val.str "X", Val.str "Alpha", Val.str "Beta", Val.num 1, Val.num 2023,
        Val.num 100, Val.num 110⟩] ∧
    primeiraDespesaDoNome exemploConflito (Val.str "X") (Val.str "Beta") =
      some (Val.num 200) ∧
    Val.num 110 ≠ Val.num 200 := by
  refine ⟨?_, ?_, ?_⟩
  · simp +decide [salvar_cnpjs_duplicados, chavesCnpj, comChaveCnpj, grupoCnpj, razoesDe,
      nunique, dedupByKey, dedupGo, paresIndices, montarConflito, trimestresDe, anosDe,
      valoresDe, cellVal, getV, exemploConflito, linhaDuplicada, List.range_succ]
  · simp +decide [primeiraDespesaDoNome, grupoCnpj, comChaveCnpj, cellVal, getV,
      exemploConflito, linhaDuplicada]
  · intro h
    have : (110 : ℚ) = 200 := by injection h
    norm_num at this

theorem getD_de_indice (l : List Val) (i : ℕ) (h : i < l.length) :
    l.getD i Val.na = l[i] := by
  rw [List.getD_eq_getElem?_getD, List.getElem?_eq_getElem h]
  rfl

theorem countP_par_unico (l : List Val) (hnd : l.Nodup) (a b : Val) (ia ib : ℕ)
    (hia : ia < l.length) (hib : ib < l.length) (hlt : ia < ib)
    (hga : l.getD ia Val.na = a) (hgb : l.getD ib Val.na = b) (_hab : a ≠ b) :
    (paresIndices l.length).countP (fun par =>
      (l.getD par.1 Val.na == a && l.getD par.2 Val.na == b) ||
      (l.getD par.1 Val.na == b && l.getD par.2 Val.na == a)) = 1 := by
  have hinj : ∀ i j, i < l.length → j < l.length →
      l.getD i Val.na = l.getD j Val.na → i = j := by
    intro i j hi hj heq
    rw [getD_de_indice l i hi, getD_de_indice l j hj] at heq
    exact (hnd.getElem_inj_iff).1 heq
  refine countP_eq_one_of_unique _ _ (ia, ib) (nodup_paresIndices _) ?_ ?_ ?_
  · exact (mem_paresIndices _ _ _).2 ⟨hlt, hib⟩
  · show ((l.getD ia Val.na == a && l.getD ib Val.na == b) ||
      (l.getD ia Val.na == b && l.getD ib Val.na == a)) = true
    rw [hga, hgb]
    simp
  · rintro ⟨i, j⟩ hmem hp
    have hij := (mem_paresIndices _ _ _).1 hmem
    have hin : i < l.length := lt_trans hij.1 hij.2
    have hjn : j < l.length := hij.2
    simp only [Bool.or_eq_true, Bool.and_eq_true, beq_iff_eq] at hp
    rcases hp with ⟨hpa, hpb⟩ | ⟨hpb, hpa⟩
    · have h1 : i = ia := hinj i ia hin hia (hpa.trans hga.symm)
      have h2 : j = ib := hinj j ib hjn hib (hpb.trans hgb.symm)
      simp [h1, h2]
    · have h1 : i = ib := hinj i ib hin hib (hpb.trans hgb.symm)
      have h2 : j = ia := hinj j ia hjn hia (hpa.trans hga.symm)
      have : ib < ia := h1 ▸ h2 ▸ hij.1
      omega

/-- C4 (amended): the duplicate-name report is computed from the full
pre-validation record set passed to `salvar_cnpjs_duplicados`; for a CNPJ
whose group carries n distinct non-NaN legal names, exactly one conflict row
is emitted per unordered pair of distinct names (n choose 2 rows in total);
but each row carries the quarter, year and expense values found at the
positional indices i and j of the two names in the deduplicated name sequence
— that is, the values of the i-th and j-th rows of the group — which agree
with the first values encountered for each name only when the names first
occur at their own index positions. -/
theorem C4_pares_de_nomes (dados : List Row) (k a b : Val)
    (hna : Val.na ∉ razoesDe dados k)
    (hn : 2 ≤ (razoesDe dados k).length)
    (ha : a ∈ razoesDe dados k) (hb : b ∈ razoesDe dados k) (hab : a ≠ b) :
    (salvar_cnpjs_duplicados dados).countP (fun c => c.cnpj == k) =
      ((razoesDe dados k).length).choose 2 ∧
    (salvar_cnpjs_duplicados dados).countP (fun c => c.cnpj == k &&
      ((c.razaoSocial1 == a && c.razaoSocial2 == b) ||
       (c.razaoSocial1 == b && c.razaoSocial2 == a))) = 1 ∧
    (∀ i j : ℕ, i < j → j < (razoesDe dados k).length →
       montarConflito dados k (i, j) ∈ salvar_cnpjs_duplicados dados) := by
  have hnodup_raz : (razoesDe dados k).Nodup := nodup_dedupByKey_id _
  have hgrupo_ne : grupoCnpj dados k ≠ [] := by
    intro h0
    rw [razoesDe, h0] at hn
    simp [dedupByKey, dedupGo] at hn
  have hk_mem : k ∈ chavesCnpj dados := by
    obtain ⟨r, hr⟩ := List.exists_mem_of_ne_nil _ hgrupo_ne
    have hr2 : r ∈ comChaveCnpj dados := (List.mem_filter.1 hr).1
    have hrk : cellVal r "CNPJ" = k := by
      have := (List.mem_filter.1 hr).2
      exact eq_of_beq this
    rw [chavesCnpj, mem_dedupByKey_id]
    exact hrk ▸ List.mem_map_of_mem _ hr2
  have hnodup_chaves : (chavesCnpj dados).Nodup := nodup_dedupByKey_id _
  have hcond : 1 < nunique ((grupoCnpj dados k).map (fun r => cellVal r "RazaoSocial")) := by
    rw [nunique]
    have hdef : dedupByKey id ((grupoCnpj dados k).map (fun r => cellVal r "RazaoSocial")) =
        razoesDe dados k := rfl
    rw [hdef, List.filter_eq_self.2 ?_]
    · omega
    · intro v hv
      simp only [bne_iff_ne, ne_eq]
      intro hveq
      exact hna (hveq ▸ hv)
  refine ⟨?_, ?_, ?_⟩
  · rw [salvar_cnpjs_duplicados, countP_flatMap_sum,
      soma_indicadora _ (chavesCnpj dados) k hnodup_chaves hk_mem ?_]
    · rw [if_pos hcond, List.countP_map]
      have hall : (paresIndices (razoesDe dados k).length).countP
          ((fun c => c.cnpj == k) ∘ montarConflito dados k) =
          (paresIndices (razoesDe dados k).length).length := by
        rw [List.countP_eq_length]
        intro par _
        simp [montarConflito]
      rw [hall, length_paresIndices]
    · intro k2 _ hk2
      by_cases hc : 1 < nunique ((grupoCnpj dados k2).map (fun r => cellVal r "RazaoSocial"))
      · rw [if_pos hc, List.countP_map, List.countP_eq_zero]
        intro par _
        simp only [Function.comp_apply, montarConflito, beq_iff_eq]
        simp [hk2]
      · rw [if_neg hc]
        simp
  · obtain ⟨ia, hia, hga⟩ := List.mem_iff_getElem.1 ha
    obtain ⟨ib, hib, hgb⟩ := List.mem_iff_getElem.1 hb
    have hga2 : (razoesDe dados k).getD ia Val.na = a := by
      rw [getD_de_indice _ ia hia]
      exact hga
    have hgb2 : (razoesDe dados k).getD ib Val.na = b := by
      rw [getD_de_indice _ ib hib]
      exact hgb
    have hne_idx : ia ≠ ib := by
      intro he
      exact hab (by rw [← hga2, ← hgb2, he])
    rw [salvar_cnpjs_duplicados, countP_flatMap_sum,
      soma_indicadora _ (chavesCnpj dados) k hnodup_chaves hk_mem ?_]
    · rw [if_pos hcond, List.countP_map]
      rcases Nat.lt_or_ge ia ib with hlt | hge
      · rw [← countP_par_unico (razoesDe dados k) hnodup_raz a b ia ib hia hib hlt hga2 hgb2 hab]
        refine List.countP_congr ?_
        rintro ⟨i, j⟩ _
        simp [montarConflito]
      · have hlt : ib < ia := by omega
        rw [← countP_par_unico (razoesDe dados k) hnodup_raz b a ib ia hib hia hlt hgb2 hga2
          (Ne.symm hab)]
        refine List.countP_congr ?_
        rintro ⟨i, j⟩ _
        simp only [Function.comp_apply, montarConflito, Bool.or_eq_true, Bool.and_eq_true,
          beq_iff_eq]
        constructor
        · rintro ⟨-, h | h⟩
          · exact Or.inr h
          · exact Or.inl h
        · rintro (h | h)
          · exact ⟨trivial, Or.inr h⟩
          · exact ⟨trivial, Or.inl h⟩
    · intro k2 _ hk2
      by_cases hc : 1 < nunique ((grupoCnpj dados k2).map (fun r => cellVal r "RazaoSocial"))
      · rw [if_pos hc, List.countP_map, List.countP_eq_zero]
        intro par _
        simp only [Function.comp_apply, montarConflito]
        simp [hk2]
      · rw [if_neg hc]
        simp
  · intro i j hij hjn
    rw [salvar_cnpjs_duplicados]
    refine List.mem_flatMap_of_mem hk_mem ?_
    rw [if_pos hcond]
    exact List.mem_map_of_mem _ ((mem_paresIndices _ _ _).2 ⟨hij, hjn⟩)

/-- C4 witness: one CNPJ with three distinct names emits 3 = C(3,2) pairwise
conflict rows, exactly one of them pairing Alpha with Gama. -/
theorem C4_testemunha :
    (salvar_cnpjs_duplicados exemploTresNomes).countP
      (fun c => c.cnpj == Val.str "X") =
      ((razoesDe exemploTresNomes (Val.str "X")).length).choose 2 ∧
    (salvar_cnpjs_duplicados exemploTresNomes).countP
      (fun c => c.cnpj == Val.str "X" &&
        ((c.razaoSocial1 == Val.str "Alpha" && c.razaoSocial2 == Val.str "Gama") ||
         (c.razaoSocial1 == Val.str "Gama" && c.razaoSocial2 == Val.str "Alpha"))) = 1 ∧
    (∀ i j : ℕ, i < j → j < (razoesDe exemploTresNomes (Val.str "X")).length →
       montarConflito exemploTresNomes (Val.str "X") (i, j) ∈
         salvar_cnpjs_duplicados exemploTresNomes) :=
  C4_pares_de_nomes exemploTresNomes (Val.str "X") (Val.str "Alpha") (Val.str "Gama")
    (by decide) (by decide) (by decide) (by decide) (by decide)

theorem okCelula_some (o : Option Val) (h : okCelula o = true) : ∃ v, o = some v ∧ v ≠ Val.na := by
  match o with
  | none => simp [okCelula] at h
  | some Val.na => simp [okCelula] at h
  | some (Val.str s) => exact ⟨Val.str s, rfl, by simp⟩
  | some (Val.num q) => exact ⟨Val.num q, rfl, by simp⟩

theorem filterMap_como_map (g : α → Option β) (h : α → β) (l : List α)
    (he : ∀ x ∈ l, g x = some (h x)) : l.filterMap g = l.map h := by
  induction l with
  | nil => simp
  | cons x xs ih =>
    rw [List.filterMap_cons, he x (List.mem_cons_self _ _), List.map_cons,
      ih (fun y hy => he y (List.mem_cons_of_mem _ hy))]

theorem chave_linhaAgregada (g : List Row) (k : Chave)
    (h1 : okCelula k.cnpj = true) (h2 : okCelula k.razaoSocial = true)
    (h3 : okCelula k.trimestre = true) (h4 : okCelula k.ano = true) :
    chave (linhaAgregada g k) = k := by
  obtain ⟨c1, c2, c3, c4⟩ := k
  obtain ⟨v1, hv1, -⟩ := okCelula_some _ h1
  obtain ⟨v2, hv2, -⟩ := okCelula_some _ h2
  obtain ⟨v3, hv3, -⟩ := okCelula_some _ h3
  obtain ⟨v4, hv4, -⟩ := okCelula_some _ h4
  subst hv1 hv2 hv3 hv4
  unfold chave linhaAgregada
  simp +decide [getV]

theorem getV_linhaAgregada_valor (g : List Row) (k : Chave) :
    getV (linhaAgregada g k) "ValorDespesas" =
      some (Val.num (pdRound2 (valoresGrupo g).sum)) := by
  unfold linhaAgregada
  simp +decide [getV]

theorem getV_linhaAgregada_media (g : List Row) (k : Chave)
    (h : (valoresGrupo g).length ≠ 0) :
    getV (linhaAgregada g k) "MediaTrimestral" =
      some (Val.num (pdRound2 ((valoresGrupo g).sum / ((valoresGrupo g).length : ℚ)))) := by
  unfold linhaAgregada
  simp +decide [getV]
  intro h0
  exact h (by rw [h0]; rfl)

/-- C3: on a record set of validated records whose group key cells are all
present and whose expense cells are all numeric, consolidation emits exactly
one output row per occurring (CNPJ, RazaoSocial, Trimestre, Ano) key — no two
output rows share the key — and each output row is keyed by some occurring
group key k and carries that same group k's rounded sum as ValorDespesas and
that group's rounded mean as MediaTrimestral. -/
theorem C3_consolidacao_agrupa (dados : List Row)
    (hval : ∀ r ∈ dados, validar_cnpj (valStr (getV r "CNPJ")) = true)
    (hchave : ∀ r ∈ dados, chaveValida r = true)
    (hnum : ∀ r ∈ dados, ∃ q : ℚ, getV r "ValorDespesas" = some (Val.num q))
    (hne : dados ≠ []) :
    ∃ saida duplicados,
      consolidar_dados_em_csv dados = ResultadoConsolidacao.ok saida duplicados ∧
      (saida.map chave).Nodup ∧
      (∀ k : Chave, k ∈ saida.map chave ↔ k ∈ dados.map chave) ∧
      (∀ linha ∈ saida, ∃ k : Chave, k ∈ dados.map chave ∧ chave linha = k ∧
        getV linha "ValorDespesas" = some (Val.num (pdRound2 (somaGrupo dados k))) ∧
        getV linha "MediaTrimestral" =
          some (Val.num (pdRound2 (somaGrupo dados k / (contagemGrupo dados k : ℚ))))) := by
  have hvalidos : validosDe dados = dados := by
    simp only [validosDe, filtrar_cnpjs_invalidos]
    exact List.filter_eq_self.2 hval
  have hchave_ok : ∀ r ∈ dados, okCelula (getV r "CNPJ") = true ∧
      okCelula (getV r "RazaoSocial") = true ∧ okCelula (getV r "Trimestre") = true ∧
      okCelula (getV r "Ano") = true := by
    intro r hr
    have h := hchave r hr
    simp only [chaveValida, Bool.and_eq_true] at h
    exact ⟨h.1.1.1, h.1.1.2, h.1.2, h.2⟩
  have hmemKeys : ∀ c ∈ colunasDesejadas, c ∈ unionKeys dados := by
    intro c hc
    obtain ⟨r0, hr0⟩ := List.exists_mem_of_ne_nil dados hne
    have hok := hchave_ok r0 hr0
    simp only [colunasDesejadas, List.mem_cons, List.not_mem_nil, or_false] at hc
    rcases hc with rfl | rfl | rfl | rfl | rfl
    · obtain ⟨v, hv, -⟩ := okCelula_some _ hok.1
      exact mem_unionKeys_de_getV dados r0 _ v hr0 hv
    · obtain ⟨v, hv, -⟩ := okCelula_some _ hok.2.1
      exact mem_unionKeys_de_getV dados r0 _ v hr0 hv
    · obtain ⟨v, hv, -⟩ := okCelula_some _ hok.2.2.1
      exact mem_unionKeys_de_getV dados r0 _ v hr0 hv
    · obtain ⟨v, hv, -⟩ := okCelula_some _ hok.2.2.2
      exact mem_unionKeys_de_getV dados r0 _ v hr0 hv
    · obtain ⟨q, hq⟩ := hnum r0 hr0
      exact mem_unionKeys_de_getV dados r0 _ _ hr0 hq
  have hcols : colunasExistentesDe dados = colunasDesejadas := by
    unfold colunasExistentesDe
    refine List.filter_eq_self.2 ?_
    intro c hc
    rw [hvalidos]
    exact decide_eq_true (hmemKeys c hc)
  have hexist : "ValorDespesas" ∈ colunasExistentesDe dados := by
    rw [hcols]
    decide
  have harred_each : ∀ r ∈ dados, arredondarValor r =
      Except.ok (setV r "ValorDespesas" (Val.num (pdRound2 (despesaQ r)))) := by
    intro r hr
    obtain ⟨q, hq⟩ := hnum r hr
    have hdq : despesaQ r = q := by
      unfold despesaQ
      rw [hq]
    rw [hdq]
    simp only [arredondarValor, hq]
  have harred : etapaArredondar dados = Except.ok
      (dados.map (fun r => setV r "ValorDespesas" (Val.num (pdRound2 (despesaQ r))))) := by
    unfold etapaArredondar
    rw [if_pos hexist, hvalidos]
    exact mapExcept_ok_de _ _ dados harred_each
  have hcons : consolidar_dados_em_csv dados = ResultadoConsolidacao.ok
      (agregados (dados.map (fun r => setV r "ValorDespesas" (Val.num (pdRound2 (despesaQ r))))))
      (salvar_cnpjs_duplicados dados) := by
    unfold consolidar_dados_em_csv
    rw [if_neg ?hvazio]
    case hvazio =>
      simp only [hvalidos, List.isEmpty_iff]
      exact hne
    simp only [harred]
    rw [if_neg (fun hcon => hcon hcols)]
  have hlinhas : linhasComChave
      (dados.map (fun r => setV r "ValorDespesas" (Val.num (pdRound2 (despesaQ r))))) =
      dados.map (fun r => setV r "ValorDespesas" (Val.num (pdRound2 (despesaQ r)))) := by
    unfold linhasComChave
    refine List.filter_eq_self.2 ?_
    intro x hx
    obtain ⟨r, hr, rfl⟩ := List.mem_map.1 hx
    rw [chaveValida_setV_valor]
    exact hchave r hr
  have hmapchave : (dados.map
      (fun r => setV r "ValorDespesas" (Val.num (pdRound2 (despesaQ r))))).map chave =
      dados.map chave := by
    rw [List.map_map]
    refine List.map_congr_left ?_
    intro r _
    exact chave_setV_valor r _
  have hsaida_def : agregados
      (dados.map (fun r => setV r "ValorDespesas" (Val.num (pdRound2 (despesaQ r))))) =
      (dedupByKey id (dados.map chave)).map (fun k => linhaAgregada
        ((dados.map (fun r => setV r "ValorDespesas"
          (Val.num (pdRound2 (despesaQ r))))).filter (fun r => chave r == k)) k) := by
    unfold agregados
    rw [hlinhas]
    simp only [chavesDe]
    rw [hmapchave]
  have hok_de_k : ∀ k ∈ dedupByKey id (dados.map chave), okCelula k.cnpj = true ∧
      okCelula k.razaoSocial = true ∧ okCelula k.trimestre = true ∧
      okCelula k.ano = true := by
    intro k hk
    rw [mem_dedupByKey_id] at hk
    obtain ⟨r, hr, rfl⟩ := List.mem_map.1 hk
    exact hchave_ok r hr
  have hmapchave_saida : (agregados (dados.map
      (fun r => setV r "ValorDespesas" (Val.num (pdRound2 (despesaQ r)))))).map chave =
      dedupByKey id (dados.map chave) := by
    rw [hsaida_def, List.map_map]
    refine (List.map_congr_left ?_).trans (List.map_id _)
    intro k hk
    have hok := hok_de_k k hk
    exact chave_linhaAgregada _ k hok.1 hok.2.1 hok.2.2.1 hok.2.2.2
  refine ⟨_, _, hcons, ?_, ?_, ?_⟩
  · rw [hmapchave_saida]
    exact nodup_dedupByKey_id _
  · intro k
    rw [hmapchave_saida, mem_dedupByKey_id]
  · intro linha hlinha
    rw [hsaida_def] at hlinha
    obtain ⟨k, hk, rfl⟩ := List.mem_map.1 hlinha
    have hgrupo : (dados.map
        (fun r => setV r "ValorDespesas" (Val.num (pdRound2 (despesaQ r))))).filter
          (fun r => chave r == k) =
        (dados.filter (fun r => chave r == k)).map
          (fun r => setV r "ValorDespesas" (Val.num (pdRound2 (despesaQ r)))) := by
      rw [List.filter_map]
      refine congrArg _ (List.filter_congr ?_)
      intro r _
      show (chave (setV r "ValorDespesas" (Val.num (pdRound2 (despesaQ r)))) == k) =
        (chave r == k)
      rw [chave_setV_valor]
    have hvals : valoresGrupo ((dados.filter (fun r => chave r == k)).map
        (fun r => setV r "ValorDespesas" (Val.num (pdRound2 (despesaQ r))))) =
        (dados.filter (fun r => chave r == k)).map (fun r => pdRound2 (despesaQ r)) := by
      unfold valoresGrupo
      rw [List.filterMap_map]
      refine filterMap_como_map _ _ _ ?_
      intro r _
      simp only [Function.comp_apply, getV_setV_mesma]
    have hsoma : (valoresGrupo ((dados.map (fun r => setV r "ValorDespesas"
        (Val.num (pdRound2 (despesaQ r))))).filter (fun r => chave r == k))).sum =
        somaGrupo dados k := by
      rw [hgrupo, hvals]
      rfl
    have hcont : (valoresGrupo ((dados.map (fun r => setV r "ValorDespesas"
        (Val.num (pdRound2 (despesaQ r))))).filter (fun r => chave r == k))).length =
        contagemGrupo dados k := by
      rw [hgrupo, hvals, List.length_map]
      rfl
    have hk2 := (mem_dedupByKey_id _ _).1 hk
    have hlen_ne : (valoresGrupo ((dados.map (fun r => setV r "ValorDespesas"
        (Val.num (pdRound2 (despesaQ r))))).filter (fun r => chave r == k))).length ≠ 0 := by
      rw [hcont]
      obtain ⟨r, hr, hrk⟩ := List.mem_map.1 hk2
      have hmemf : r ∈ dados.filter (fun r => chave r == k) :=
        List.mem_filter.2 ⟨hr, by simp [hrk]⟩
      unfold contagemGrupo
      intro h0
      rw [List.length_eq_zero] at h0
      rw [h0] at hmemf
      simp at hmemf
    have hok := hok_de_k k hk
    refine ⟨k, hk2, chave_linhaAgregada _ k hok.1 hok.2.1 hok.2.2.1 hok.2.2.2, ?_, ?_⟩
    · rw [getV_linhaAgregada_valor, hsoma]
    · rw [getV_linhaAgregada_media _ _ hlen_ne, hsoma, hcont]

/-- C3 witness: two records with the same key and expenses 100 and 50
consolidate into rows keyed once each, and the group aggregation of that key
is sum 150.00 and mean 75.00. -/
theorem C3_testemunha :
    (∃ saida duplicados,
      consolidar_dados_em_csv exemploConsolidacao = ResultadoConsolidacao.ok saida duplicados ∧
      (saida.map chave).Nodup ∧
      (∀ k : Chave, k ∈ saida.map chave ↔ k ∈ exemploConsolidacao.map chave) ∧
      (∀ linha ∈ saida, ∃ k : Chave, k ∈ exemploConsolidacao.map chave ∧ chave linha = k ∧
        getV linha "ValorDespesas" =
          some (Val.num (pdRound2 (somaGrupo exemploConsolidacao k))) ∧
        getV linha "MediaTrimestral" =
          some (Val.num (pdRound2 (somaGrupo exemploConsolidacao k /
            (contagemGrupo exemploConsolidacao k : ℚ)))))) ∧
    pdRound2 (somaGrupo exemploConsolidacao (chave (linhaConsolidacao "Alpha" 1 2023 100))) =
      150 ∧
    pdRound2 (somaGrupo exemploConsolidacao (chave (linhaConsolidacao "Alpha" 1 2023 100)) /
      (contagemGrupo exemploConsolidacao (chave (linhaConsolidacao "Alpha" 1 2023 100)) : ℚ)) =
      75 := by
  have hchave_eq : chave (linhaConsolidacao "Alpha" 1 2023 50) =
      chave (linhaConsolidacao "Alpha" 1 2023 100) := rfl
  have hfilter : exemploConsolidacao.filter
      (fun r => chave r == chave (linhaConsolidacao "Alpha" 1 2023 100)) =
      exemploConsolidacao := by
    refine List.filter_eq_self.2 ?_
    intro r hr
    simp only [exemploConsolidacao, List.mem_cons, List.not_mem_nil, or_false] at hr
    rcases hr with rfl | rfl
    · simp
    · rw [hchave_eq]
      simp
  have hd1 : despesaQ (linhaConsolidacao "Alpha" 1 2023 100) = 100 := rfl
  have hd2 : despesaQ (linhaConsolidacao "Alpha" 1 2023 50) = 50 := rfl
  have h100 : pdRound2 100 = 100 := by
    have h := pdRound2_baixo 100 10000 (by norm_num) (by norm_num)
    rw [h]
    norm_num
  have h50 : pdRound2 50 = 50 := by
    have h := pdRound2_baixo 50 5000 (by norm_num) (by norm_num)
    rw [h]
    norm_num
  have hsoma : somaGrupo exemploConsolidacao (chave (linhaConsolidacao "Alpha" 1 2023 100)) =
      150 := by
    unfold somaGrupo
    rw [hfilter]
    simp only [exemploConsolidacao, List.map_cons, List.map_nil, List.sum_cons, List.sum_nil]
    rw [hd1, hd2, h100, h50]
    norm_num
  have hcont : contagemGrupo exemploConsolidacao
      (chave (linhaConsolidacao "Alpha" 1 2023 100)) = 2 := by
    unfold contagemGrupo
    rw [hfilter]
    rfl
  refine ⟨C3_consolidacao_agrupa exemploConsolidacao (by decide) (by decide) ?_ ?_, ?_, ?_⟩
  · intro r hr
    simp only [exemploConsolidacao, List.mem_cons, List.not_mem_nil, or_false] at hr
    rcases hr with rfl | rfl
    · exact ⟨100, rfl⟩
    · exact ⟨50, rfl⟩
  · intro h0
    simp [exemploConsolidacao] at h0
  · rw [hsoma]
    have h := pdRound2_baixo 150 15000 (by norm_num) (by norm_num)
    rw [h]
    norm_num
  · rw [hsoma, hcont]
    have h75 : (150 : ℚ) / (2 : ℕ) = 75 := by norm_num
    rw [h75]
    have h := pdRound2_baixo 75 7500 (by norm_num) (by norm_num)
    rw [h]
    norm_num
